import Mathlib

/-!
Verification development for the texture image manager and merge compositor
(`src/render/image.cpp`, `src/render/merge.cpp`).

The C++ sources are shallowly embedded: machine integers become `Nat`/`Int`,
`float` values become `ℚ` (only ever used for exact arithmetic and for the
finiteness tag, never for rounding behaviour), pointers become `Nat`
(0 = `NULL`), `std::vector<T*>` slots become `List (Option _)`, and the
external collaborators (OpenImageIO readers/writers, the device allocator,
the task pool, `Progress`) are modelled by explicit oracle inputs recording
the results the collaborator would return.
-/

namespace Cycles

/-! ## Image data types (`ImageDataType` from `util/util_texture.h`)

The enumeration order is the one documented in the source
(`name_from_type` in `render/image.cpp` and the low-bits handle encoding):
`FLOAT4, BYTE4, HALF4, FLOAT, BYTE, HALF, USHORT4, USHORT`. -/

inductive ImageDataType where
  | FLOAT4 | BYTE4 | HALF4 | FLOAT | BYTE | HALF | USHORT4 | USHORT
deriving DecidableEq, Repr

/-- Numeric tag of each `ImageDataType`, i.e. its position in the enum. -/
def ImageDataType.tag : ImageDataType → Nat
  | .FLOAT4 => 0
  | .BYTE4 => 1
  | .HALF4 => 2
  | .FLOAT => 3
  | .BYTE => 4
  | .HALF => 5
  | .USHORT4 => 6
  | .USHORT => 7

/-- Inverse of `ImageDataType.tag` (total on `Nat`; tags are `< 8`). -/
def ImageDataType.ofTag : Nat → ImageDataType
  | 0 => .FLOAT4
  | 1 => .BYTE4
  | 2 => .HALF4
  | 3 => .FLOAT
  | 4 => .BYTE
  | 5 => .HALF
  | 6 => .USHORT4
  | _ => .USHORT

/-- `IMAGE_DATA_NUM_TYPES` — iteration order of the per-type slot tables,
used to embed every `for (type = 0; type < IMAGE_DATA_NUM_TYPES; type++)`
loop of the source. -/
def allImageDataTypes : List ImageDataType :=
  [.FLOAT4, .BYTE4, .HALF4, .FLOAT, .BYTE, .HALF, .USHORT4, .USHORT]

/-- `name_from_type` from `render/image.cpp`. -/
def name_from_type : ImageDataType → String
  | .FLOAT4 => "float4"
  | .BYTE4 => "byte4"
  | .HALF4 => "half4"
  | .FLOAT => "float"
  | .BYTE => "byte"
  | .HALF => "half"
  | .USHORT4 => "ushort4"
  | .USHORT => "ushort"

/-! ## Flat handle encoding

`render/image.cpp` documents: "The lower three bits of a device texture slot
number indicate its type."  So `IMAGE_DATA_TYPE_SHIFT = 3` and the mask is
`7`; `(slot << 3) | tag` equals `slot * 8 + tag` because `tag < 8`, and
`flat & 7` / `flat >> 3` equal `flat % 8` / `flat / 8` for non-negative
`flat`.  Handles are C `int`s, with `-1` the invalid handle. -/

def IMAGE_DATA_TYPE_SHIFT : Nat := 3

def IMAGE_DATA_TYPE_MASK : Nat := 7

/-- `type_index_to_flattened_slot` from `render/image.cpp`:
`(slot << IMAGE_DATA_TYPE_SHIFT) | (type)`. -/
def type_index_to_flattened_slot (slot : Nat) (type : ImageDataType) : Int :=
  Int.ofNat (slot * 2 ^ IMAGE_DATA_TYPE_SHIFT + type.tag)

/-- `flattened_slot_to_type_index` from `render/image.cpp`:
`*type = flat & IMAGE_DATA_TYPE_MASK; return flat >> IMAGE_DATA_TYPE_SHIFT`.
Negative inputs other than `-1` are never produced by the manager; we map
them through `Int.toNat`. -/
def flattened_slot_to_type_index (flat_slot : Int) : ImageDataType × Nat :=
  (ImageDataType.ofTag (flat_slot.toNat % 2 ^ IMAGE_DATA_TYPE_SHIFT),
   flat_slot.toNat / 2 ^ IMAGE_DATA_TYPE_SHIFT)

/-! ## Interpolation, extension, alpha and grid enums -/

inductive InterpolationType where
  | NONE | LINEAR | CLOSEST | CUBIC | SMART
deriving DecidableEq, Repr

inductive ExtensionType where
  | REPEAT | EXTEND | CLIP
deriving DecidableEq, Repr

inductive ImageAlphaType where
  | UNASSOCIATED | ASSOCIATED | CHANNEL_PACKED | IGNORE | AUTO
deriving DecidableEq, Repr

inductive ImageGridType where
  | DEFAULT | SPARSE | SPARSE_PAD | OPENVDB
deriving DecidableEq, Repr

/-! ## Image metadata and colorspace detection -/

/-- Colorspaces are interned strings (`ustring`).  `u_colorspace_raw` and
`u_colorspace_srgb` are the two distinguished built-in values. -/
def u_colorspace_raw : String := "__builtin_raw"

def u_colorspace_srgb : String := "__builtin_srgb"

/-- `ImageMetaData` (fields as used by `render/image.cpp`). -/
structure ImageMetaData where
  width : Nat := 0
  height : Nat := 0
  depth : Nat := 0
  channels : Nat := 0
  type : ImageDataType := .BYTE
  is_float : Bool := false
  is_half : Bool := false
  compress_as_srgb : Bool := false
  colorspace : String := ""
  builtin_free_cache : Bool := false
deriving DecidableEq, Repr

/-- `ImageManager::metadata_detect_colorspace` from `render/image.cpp`.
The call to the external `ColorSpaceManager::detect_known_colorspace`
collaborator is modelled by the `detected` argument: the colorspace it
returned for this metadata. -/
def metadata_detect_colorspace (detected : String) (metadata : ImageMetaData) :
    ImageMetaData :=
  let metadata := { metadata with colorspace := detected }
  if metadata.colorspace = u_colorspace_raw then
    metadata
  else if metadata.colorspace = u_colorspace_srgb then
    { metadata with compress_as_srgb := true }
  else
    let metadata := { metadata with
      compress_as_srgb :=
        metadata.type == ImageDataType.BYTE || metadata.type == ImageDataType.BYTE4 }
    if metadata.type = ImageDataType.USHORT then
      { metadata with type := ImageDataType.HALF }
    else if metadata.type = ImageDataType.USHORT4 then
      { metadata with type := ImageDataType.HALF4 }
    else
      metadata

/-! ## Pixel pipeline: the working-buffer loops of `file_load_image`

`file_load_image` is generic over `(FileFormat, StorageType, DeviceType)`.
The working buffer is a flat array of `StorageType`; we model the storage
type abstractly by a type `S` together with the operations the loops use
(`util_image_cast_from_float(1.0f)`, `util_image_cast_to_float`,
`util_image_cast_from_float`).  The `dflt` value stands for the arbitrary
byte pattern an out-of-bounds C read would produce; all theorems keep
indices in bounds. -/

structure StorageOps (S : Type) where
  one : S
  cast_to_float : S → ℚ
  cast_from_float : ℚ → S

/-- Float storage values: either finite (an exact rational) or non-finite
(NaN / ±∞).  `isfinite` is the source's finiteness test; writing the
constant `0` stores `fin 0`. -/
inductive FloatVal where
  | fin (v : ℚ)
  | nonfinite
deriving DecidableEq, Repr

def FloatVal.isfinite : FloatVal → Bool
  | .fin _ => true
  | .nonfinite => false

/-- One iteration of the RGBA finite guard in `file_load_image`:
`StorageType *pixel = &pixels[i * 4]; if (!isfinite(pixel[0]) || ...) {
pixel[0] = 0; ... pixel[3] = 0; }`. -/
def finite_guard_rgba_body (buf : List FloatVal) (i : Nat) : List FloatVal :=
  if !(buf.getD (i * 4 + 0) .nonfinite).isfinite
      || !(buf.getD (i * 4 + 1) .nonfinite).isfinite
      || !(buf.getD (i * 4 + 2) .nonfinite).isfinite
      || !(buf.getD (i * 4 + 3) .nonfinite).isfinite then
    ((((buf.set (i * 4 + 0) (.fin 0)).set (i * 4 + 1) (.fin 0)).set
        (i * 4 + 2) (.fin 0)).set (i * 4 + 3) (.fin 0))
  else
    buf

/-- The RGBA finite guard of `file_load_image`:
`for (size_t i = 0; i < num_pixels; i += 4)` — the loop counter takes the
values `0, 4, 8, ...` below `num_pixels` (there are `⌈num_pixels/4⌉` of
them), and the body addresses `&pixels[i * 4]`. -/
def finite_guard_rgba (num_pixels : Nat) (buf : List FloatVal) : List FloatVal :=
  ((List.range ((num_pixels + 3) / 4)).map (· * 4)).foldl finite_guard_rgba_body buf

/-- The single-channel finite guard of `file_load_image`:
`for (size_t i = 0; i < num_pixels; ++i) if (!isfinite(pixel[0])) pixel[0] = 0;`. -/
def finite_guard_single (num_pixels : Nat) (buf : List FloatVal) : List FloatVal :=
  (List.range num_pixels).foldl
    (fun b i => if !(b.getD i .nonfinite).isfinite then b.set i (.fin 0) else b) buf

/-- The per-pixel writes of the CMYK → RGBA expansion of `file_load_image`
(the expansion loops iterate `i = num_pixels-1` down to `0`, in place; the
reads happen before the writes, each statement acting on the current
buffer). -/
def cmyk_write {S : Type} (ops : StorageOps S) (dflt : S) (b : List S) (i : Nat) :
    List S :=
  let c := ops.cast_to_float (b.getD (i * 4 + 0) dflt)
  let m := ops.cast_to_float (b.getD (i * 4 + 1) dflt)
  let y := ops.cast_to_float (b.getD (i * 4 + 2) dflt)
  let k := ops.cast_to_float (b.getD (i * 4 + 3) dflt)
  let b := b.set (i * 4 + 0) (ops.cast_from_float ((1 - c) * (1 - k)))
  let b := b.set (i * 4 + 1) (ops.cast_from_float ((1 - m) * (1 - k)))
  let b := b.set (i * 4 + 2) (ops.cast_from_float ((1 - y) * (1 - k)))
  b.set (i * 4 + 3) ops.one

/-- CMYK → RGBA expansion loop of `file_load_image`. -/
def cmyk_to_rgba {S : Type} (ops : StorageOps S) (dflt : S) (num_pixels : Nat)
    (buf : List S) : List S :=
  (List.range num_pixels).foldl
    (fun b pixel => cmyk_write ops dflt b (num_pixels - 1 - pixel)) buf

/-- The per-pixel writes of the grayscale+alpha → RGBA expansion of
`file_load_image`; each assignment reads the buffer as left by the previous
assignment. -/
def grayscale_alpha_write {S : Type} (dflt : S) (b : List S) (i : Nat) : List S :=
  let b := b.set (i * 4 + 3) (b.getD (i * 2 + 1) dflt)
  let b := b.set (i * 4 + 2) (b.getD (i * 2 + 0) dflt)
  let b := b.set (i * 4 + 1) (b.getD (i * 2 + 0) dflt)
  b.set (i * 4 + 0) (b.getD (i * 2 + 0) dflt)

/-- Grayscale+alpha → RGBA expansion loop of `file_load_image`. -/
def grayscale_alpha_to_rgba {S : Type} (dflt : S) (num_pixels : Nat)
    (buf : List S) : List S :=
  (List.range num_pixels).foldl
    (fun b pixel => grayscale_alpha_write dflt b (num_pixels - 1 - pixel)) buf

/-- The per-pixel writes of the RGB → RGBA expansion of `file_load_image`. -/
def rgb_write {S : Type} (ops : StorageOps S) (dflt : S) (b : List S) (i : Nat) :
    List S :=
  let b := b.set (i * 4 + 3) ops.one
  let b := b.set (i * 4 + 2) (b.getD (i * 3 + 2) dflt)
  let b := b.set (i * 4 + 1) (b.getD (i * 3 + 1) dflt)
  b.set (i * 4 + 0) (b.getD (i * 3 + 0) dflt)

/-- RGB → RGBA expansion loop of `file_load_image`. -/
def rgb_to_rgba {S : Type} (ops : StorageOps S) (dflt : S) (num_pixels : Nat)
    (buf : List S) : List S :=
  (List.range num_pixels).foldl
    (fun b pixel => rgb_write ops dflt b (num_pixels - 1 - pixel)) buf

/-- The per-pixel writes of the grayscale → RGBA expansion of
`file_load_image`. -/
def grayscale_write {S : Type} (ops : StorageOps S) (dflt : S) (b : List S) (i : Nat) :
    List S :=
  let b := b.set (i * 4 + 3) ops.one
  let b := b.set (i * 4 + 2) (b.getD i dflt)
  let b := b.set (i * 4 + 1) (b.getD i dflt)
  b.set (i * 4 + 0) (b.getD i dflt)

/-- Grayscale → RGBA expansion loop of `file_load_image`. -/
def grayscale_to_rgba {S : Type} (ops : StorageOps S) (dflt : S) (num_pixels : Nat)
    (buf : List S) : List S :=
  (List.range num_pixels).foldl
    (fun b pixel => grayscale_write ops dflt b (num_pixels - 1 - pixel)) buf

/-- Alpha-disable loop of `file_load_image`:
`if (img->alpha_type == IMAGE_ALPHA_IGNORE) pixels[i * 4 + 3] = one;`. -/
def alpha_ignore_override {S : Type} (ops : StorageOps S) (num_pixels : Nat)
    (buf : List S) : List S :=
  (List.range num_pixels).foldl
    (fun b pixel => b.set ((num_pixels - 1 - pixel) * 4 + 3) ops.one) buf

/-- The RGBA channel-expansion stage of `file_load_image` (the `is_rgba`
block: CMYK / 2-channel / 3-channel / 1-channel expansion followed by the
alpha-ignore override), exactly in source order.  `cmyk` is
`strcmp(in->format_name(), "jpeg") == 0 && components == 4`. -/
def rgba_channel_stage {S : Type} (ops : StorageOps S) (dflt : S) (cmyk : Bool)
    (components : Nat) (alpha_type : ImageAlphaType) (num_pixels : Nat)
    (buf : List S) : List S :=
  let buf :=
    if cmyk then cmyk_to_rgba ops dflt num_pixels buf
    else if components = 2 then grayscale_alpha_to_rgba dflt num_pixels buf
    else if components = 3 then rgb_to_rgba ops dflt num_pixels buf
    else if components = 1 then grayscale_to_rgba ops dflt num_pixels buf
    else buf
  if alpha_type = ImageAlphaType.IGNORE then alpha_ignore_override ops num_pixels buf
  else buf

/-! ## Image records and the manager state -/

/-- A device texture buffer (`device_vector<DeviceType>` plus the
`device_memory` bookkeeping fields the manager uses).  Pixel contents are
abstracted as a flat rational list. -/
structure DeviceMem where
  name : String
  grid_type : ImageGridType
  interpolation : InterpolationType
  extension : ExtensionType
  dense_width : Nat
  dense_height : Nat
  dense_depth : Nat
  pixels : List ℚ
  grid_info : Option (List Int)
deriving DecidableEq, Repr

/-- `ImageManager::Image` (fields as used by `render/image.cpp`;
`builtin_data` is a `void*`, modelled as a `Nat` with `0 = NULL`). -/
structure Image where
  filename : String
  grid_name : String
  builtin_data : Nat
  metadata : ImageMetaData
  need_load : Bool
  animated : Bool
  frame : ℚ
  interpolation : InterpolationType
  extension : ExtensionType
  users : Nat
  alpha_type : ImageAlphaType
  colorspace : String
  is_volume : Bool
  isovalue : ℚ
  mem : Option DeviceMem
  mem_name : String
deriving DecidableEq, Repr

/-- The `ImageManager` state: per-type slot vectors `images[type]`, the
per-type counters `tex_num_images[type]`, and the scalar flags.
`max_num_images` is `TEX_NUM_MAX` (a constant of `util/util_texture.h`
whose value no claim depends on); `oiio_texture_system` is the non-NULL
flag for the external texture system pointer. -/
structure ImageManagerState where
  images : ImageDataType → List (Option Image)
  tex_num_images : ImageDataType → Nat
  need_update : Bool
  has_half_images : Bool
  max_num_images : Nat
  oiio_texture_system : Bool
  animation_frame : Int

/-- `image_equals` from `render/image.cpp`: the identity tuple compared for
deduplication. -/
def image_equals (image : Image) (filename : String) (grid_name : String)
    (builtin_data : Nat) (interpolation : InterpolationType)
    (extension : ExtensionType) (alpha_type : ImageAlphaType)
    (colorspace : String) : Bool :=
  image.filename == filename && image.grid_name == grid_name &&
  image.builtin_data == builtin_data && image.interpolation == interpolation &&
  image.extension == extension && image.alpha_type == alpha_type &&
  image.colorspace == colorspace

/-- The argument bundle of `ImageManager::add_image`.  `metadata` is the
value the `get_image_metadata` probe filled in (the probe itself consults
external collaborators: filesystem, readers, callbacks). -/
structure AddImageArgs where
  filename : String
  grid_name : String
  builtin_data : Nat
  animated : Bool
  frame : ℚ
  interpolation : InterpolationType
  extension : ExtensionType
  alpha_type : ImageAlphaType
  colorspace : String
  is_volume : Bool
  isovalue : ℚ
  metadata : ImageMetaData
deriving Repr

/-- The body of the existing-image hit in `add_image`: update `frame`,
`alpha_type`, `colorspace` and `metadata` if changed (setting `need_load`),
then `img->users++`. -/
def image_hit_update (img : Image) (a : AddImageArgs) : Image :=
  let img := if img.frame ≠ a.frame then
    { img with frame := a.frame, need_load := true } else img
  let img := if img.alpha_type ≠ a.alpha_type then
    { img with alpha_type := a.alpha_type, need_load := true } else img
  let img := if img.colorspace ≠ a.colorspace then
    { img with colorspace := a.colorspace, need_load := true } else img
  let img := if ¬(img.metadata = a.metadata) then
    { img with metadata := a.metadata, need_load := true } else img
  { img with users := img.users + 1 }

/-- The "find existing image" loop of `add_image`: scan the type's slot
vector for the first record with an equal identity; on a hit return its
index together with the vector after the in-place hit update. -/
def scan_update (a : AddImageArgs) :
    List (Option Image) → Option (Nat × List (Option Image))
  | [] => none
  | none :: rest => (scan_update a rest).map (fun p => (p.1 + 1, none :: p.2))
  | some img :: rest =>
      if image_equals img a.filename a.grid_name a.builtin_data a.interpolation
          a.extension a.alpha_type a.colorspace then
        some (0, some (image_hit_update img a) :: rest)
      else
        (scan_update a rest).map (fun p => (p.1 + 1, some img :: p.2))

/-- First matching record (used to observe `users`; same scan order as
`scan_update`). -/
def find_image (a : AddImageArgs) : List (Option Image) → Option Image
  | [] => none
  | none :: rest => find_image a rest
  | some img :: rest =>
      if image_equals img a.filename a.grid_name a.builtin_data a.interpolation
          a.extension a.alpha_type a.colorspace then
        some img
      else
        find_image a rest

/-- The "find free slot" loop of `add_image`: index of the first empty slot,
or the vector length if there is none. -/
def find_free_slot : List (Option Image) → Nat
  | [] => 0
  | none :: _ => 0
  | some _ :: rest => find_free_slot rest + 1

/-- The half-float downgrade at the top of `add_image`:
"No half textures on OpenCL, use full float instead." -/
def effective_image_type (has_half_images : Bool) (type : ImageDataType) :
    ImageDataType :=
  if ¬has_half_images then
    if type = ImageDataType.HALF4 then ImageDataType.FLOAT4
    else if type = ImageDataType.HALF then ImageDataType.FLOAT
    else type
  else type

/-- The freshly populated record of `add_image`'s "Add new image" block. -/
def new_image_record (a : AddImageArgs) : Image :=
  { filename := a.filename
    grid_name := a.grid_name
    builtin_data := a.builtin_data
    metadata := a.metadata
    need_load := true
    animated := a.animated
    frame := a.frame
    interpolation := a.interpolation
    extension := a.extension
    users := 1
    alpha_type := a.alpha_type
    colorspace := a.colorspace
    is_volume := a.is_volume
    isovalue := a.isovalue
    mem := none
    mem_name := "" }

/-- The cap check of `add_image`: `tex_count` sums `tex_num_images[type]`
over all types. -/
def total_tex_count (st : ImageManagerState) : Nat :=
  (allImageDataTypes.map st.tex_num_images).sum

/-- Replace one type's slot vector. -/
def set_images (st : ImageManagerState) (type : ImageDataType)
    (l : List (Option Image)) : ImageManagerState :=
  { st with images := fun t => if t = type then l else st.images t }

/-- `ImageManager::add_image` from `render/image.cpp`.  Returns the flat
slot (or `-1` past the cap) and the new manager state.  The probe call
that fills `metadata` is modelled by `a.metadata`; the resize-then-assign
of the C++ (`images[type].resize(size+1); images[type][slot] = img`) is the
append/`set` below. -/
def add_image (st : ImageManagerState) (a : AddImageArgs) :
    Int × ImageManagerState :=
  let type := effective_image_type st.has_half_images a.metadata.type
  match scan_update a (st.images type) with
  | some (slot, updated) =>
      (type_index_to_flattened_slot slot type, set_images st type updated)
  | none =>
      let slot := find_free_slot (st.images type)
      let tex_count := total_tex_count st
      if tex_count > st.max_num_images then
        (-1, st)
      else
        let lst := st.images type
        let lst := if slot = lst.length then lst ++ [none] else lst
        let lst := lst.set slot (some (new_image_record a))
        (type_index_to_flattened_slot slot type,
         { set_images st type lst with
             tex_num_images := fun t =>
               if t = type then st.tex_num_images t + 1 else st.tex_num_images t
             need_update := true })

/-- `ImageManager::get_image_metadata(int flat_slot, ImageMetaData&)` from
`render/image.cpp`.  The C++ out-parameter is modelled by the `Option`
result: `none` means the function returned `false` and left the
out-parameter unwritten. -/
def get_image_metadata (st : ImageManagerState) (flat_slot : Int) :
    Option ImageMetaData :=
  if flat_slot = -1 then
    none
  else
    let ts := flattened_slot_to_type_index flat_slot
    match (st.images ts.1).getD ts.2 none with
    | some img => some img.metadata
    | none => none

/-- `users` of the first record matching the identity of `a` (in the type
`add_image` would use for it). -/
def users_at (st : ImageManagerState) (a : AddImageArgs) : Option Nat :=
  (find_image a
      (st.images (effective_image_type st.has_half_images a.metadata.type))).map
    (fun img => img.users)

/-- Number of occupied slots in one slot vector. -/
def count_records (l : List (Option Image)) : Nat :=
  (l.filter (fun o => o.isSome)).length

/-- Number of occupied slots across all pixel kinds. -/
def total_record_count (st : ImageManagerState) : Nat :=
  (allImageDataTypes.map (fun t => count_records (st.images t))).sum

/-! ## The loader (`device_load_image` / `file_load_image` control flow)

The external collaborators of a loader run are gathered into a `LoadEnv`:
the results the OpenImageIO reader, the device allocator and the sparse
encoder would produce for this record.  The file is modelled as compiled
without OpenVDB support (the `WITH_OPENVDB` blocks are configured out, as
they are collaborator calls anyway); the decode / expansion / colorspace /
finite-guard / downscale stages operate on the working buffer and are
abstracted into `LoadEnv.pixels`, the resulting working-buffer contents
(the per-stage loops are modelled separately above). -/

structure LoadEnv where
  /-- `file_load_image_generic` succeeded: file exists, decoder opened it,
  `1 ≤ channels ≤ 4`. -/
  generic_ok : Bool
  /-- the working/device buffer allocation returned non-NULL. -/
  alloc_ok : Bool
  /-- the working-buffer contents after decode and normalization. -/
  pixels : List ℚ
  /-- `device->info.type == DEVICE_CUDA` (selects the padded sparse grid). -/
  is_cuda : Bool
  /-- `create_sparse_grid{_pad}` returned true (volumes only). -/
  sparse_found : Bool
  /-- the compacted sparse pixel stream. -/
  sparse_pixels : List ℚ
  /-- the sparse tile-offset table. -/
  sparse_offsets : List Int
  /-- `allocate_grid_info` succeeded. -/
  grid_info_alloc_ok : Bool
deriving Repr

/-- Modelled from the spec: the `TEX_IMAGE_MISSING_{R,G,B,A}` constants are
defined in `util/util_texture.h`, which is not among the analysed sources;
the spec fixes the placeholder as magenta `R=1, G=0, B=1, A=1`. -/
def TEX_IMAGE_MISSING_R : ℚ := 1

/-- Modelled from the spec: see `TEX_IMAGE_MISSING_R`. -/
def TEX_IMAGE_MISSING_G : ℚ := 0

/-- Modelled from the spec: see `TEX_IMAGE_MISSING_R`. -/
def TEX_IMAGE_MISSING_B : ℚ := 1

/-- Modelled from the spec: see `TEX_IMAGE_MISSING_R`. -/
def TEX_IMAGE_MISSING_A : ℚ := 1

/-- The 1×1 placeholder pixel written by `file_load_failed`, per type
(the byte and ushort variants scale by 255 / 65535 as in the source). -/
def file_load_failed_pixels (type : ImageDataType) : List ℚ :=
  match type with
  | .FLOAT4 => [TEX_IMAGE_MISSING_R, TEX_IMAGE_MISSING_G,
                TEX_IMAGE_MISSING_B, TEX_IMAGE_MISSING_A]
  | .FLOAT => [TEX_IMAGE_MISSING_R]
  | .BYTE4 => [TEX_IMAGE_MISSING_R * 255, TEX_IMAGE_MISSING_G * 255,
               TEX_IMAGE_MISSING_B * 255, TEX_IMAGE_MISSING_A * 255]
  | .BYTE => [TEX_IMAGE_MISSING_R * 255]
  | .HALF4 => [TEX_IMAGE_MISSING_R, TEX_IMAGE_MISSING_G,
               TEX_IMAGE_MISSING_B, TEX_IMAGE_MISSING_A]
  | .HALF => [TEX_IMAGE_MISSING_R]
  | .USHORT4 => [TEX_IMAGE_MISSING_R * 65535, TEX_IMAGE_MISSING_G * 65535,
                 TEX_IMAGE_MISSING_B * 65535, TEX_IMAGE_MISSING_A * 65535]
  | .USHORT => [TEX_IMAGE_MISSING_R * 65535]

/-- `ImageManager::file_load_failed` from `render/image.cpp`: attach a 1×1
placeholder texture to the record and upload it. -/
def file_load_failed (img : Image) (type : ImageDataType) : Image :=
  { img with mem := some {
      name := img.mem_name
      grid_type := ImageGridType.DEFAULT
      interpolation := img.interpolation
      extension := img.extension
      dense_width := 0
      dense_height := 0
      dense_depth := 0
      pixels := file_load_failed_pixels type
      grid_info := none } }

/-- `ImageManager::file_load_image` control flow from `render/image.cpp`
(failure returns `false` with no buffer attached, except the sparse
`allocate_grid_info` failure which goes through `file_load_failed`; the
success paths attach the buffer and return `true`).  The `texture_limit`
downscale only changes the stored dimensions and is not needed by any
claim. -/
def file_load_image (env : LoadEnv) (img : Image) (type : ImageDataType)
    (texture_limit : Nat) : Image × Bool :=
  if ¬env.generic_ok then (img, false)
  else
    let width := img.metadata.width
    let height := img.metadata.height
    let depth := img.metadata.depth
    let max_size := max (max width height) depth
    if max_size = 0 then (img, false)
    else if ¬env.alloc_ok then (img, false)
    else if img.is_volume && env.sparse_found then
      if ¬env.grid_info_alloc_ok then (file_load_failed img type, false)
      else
        ({ img with mem := some {
            name := img.mem_name
            grid_type := if env.is_cuda then ImageGridType.SPARSE_PAD
                         else ImageGridType.SPARSE
            interpolation := img.interpolation
            extension := img.extension
            dense_width := width
            dense_height := height
            dense_depth := depth
            pixels := env.sparse_pixels
            grid_info := some env.sparse_offsets } }, true)
    else
      ({ img with mem := some {
          name := img.mem_name
          grid_type := ImageGridType.DEFAULT
          interpolation := img.interpolation
          extension := img.extension
          dense_width := width
          dense_height := height
          dense_depth := depth
          pixels := env.pixels
          grid_info := none } }, true)

/-- Zero-padded 3-digit rendering of a (non-negative) flat slot,
`string_printf("%03d", flat_slot)`. -/
def pad3 (n : Int) : String :=
  let s := toString n.toNat
  if s.length ≥ 3 then s else String.mk (List.replicate (3 - s.length) '0') ++ s

/-- The device buffer debug name assigned by `device_load_image`:
`__tex_image_<type_name>_<flat slot, 3 digits>`. -/
def mem_name_string (type : ImageDataType) (flat_slot : Int) : String :=
  "__tex_image_" ++ name_from_type type ++ "_" ++ pad3 flat_slot

/-- The per-record body of `ImageManager::device_load_image` (everything
after the cancellation poll and the slot lookup): either the external
texture system path (which only marks the record loaded; its handle table
lives outside the manager), or name assignment, freeing of the previous
buffer, the `file_load_image` call — whose boolean result the source
discards — and the unconditional `img->need_load = false`. -/
def load_result (oiio : Bool) (env : LoadEnv) (texture_limit : Nat)
    (type : ImageDataType) (slot : Nat) (img : Image) : Image :=
  if oiio && img.builtin_data == 0 then
    { img with need_load := false }
  else
    let flat_slot := type_index_to_flattened_slot slot type
    let img := { img with mem_name := mem_name_string type flat_slot }
    let img := { img with mem := none }
    let img := (file_load_image env img type texture_limit).1
    { img with need_load := false }

/-- `ImageManager::device_load_image` from `render/image.cpp`: poll the
`Progress` collaborator (`cancel`), look the record up, and apply
`load_result`. -/
def device_load_image (cancel : Bool) (env : LoadEnv) (texture_limit : Nat)
    (st : ImageManagerState) (type : ImageDataType) (slot : Nat) :
    ImageManagerState :=
  if cancel then st
  else
    match (st.images type).getD slot none with
    | none => st
    | some img =>
        set_images st type
          ((st.images type).set slot
            (some (load_result st.oiio_texture_system env texture_limit type slot img)))

/-- `ImageManager::device_free_image` from `render/image.cpp`: free the
buffers, delete the record, clear the slot, decrement the counter. -/
def device_free_image (st : ImageManagerState) (type : ImageDataType)
    (slot : Nat) : ImageManagerState :=
  match (st.images type).getD slot none with
  | none => st
  | some _ =>
      { set_images st type ((st.images type).set slot none) with
          tex_num_images := fun t =>
            if t = type then st.tex_num_images t - 1 else st.tex_num_images t }

/-- The per-slot body of the `device_update` scan: free records with no
users, dispatch a loader for records that need loading.  The task pool is
sequentialized: each loader touches only its own record, so running the
queued tasks in scan order is equivalent. -/
def device_update_step (cancel : Bool) (envs : ImageDataType → Nat → LoadEnv)
    (texture_limit : Nat) (st : ImageManagerState) (type : ImageDataType)
    (slot : Nat) : ImageManagerState :=
  match (st.images type).getD slot none with
  | none => st
  | some img =>
      if img.users = 0 then device_free_image st type slot
      else if img.need_load then
        device_load_image cancel (envs type slot) texture_limit st type slot
      else st

/-- The inner slot loop of `device_update` for one type. -/
def device_update_slots (cancel : Bool) (envs : ImageDataType → Nat → LoadEnv)
    (texture_limit : Nat) (st : ImageManagerState) (type : ImageDataType) :
    ImageManagerState :=
  (List.range (st.images type).length).foldl
    (fun st' slot => device_update_step cancel envs texture_limit st' type slot) st

/-- `ImageManager::device_update` from `render/image.cpp`: early-out when
`need_update` is clear; otherwise scan every slot of every type, then clear
`need_update`. -/
def device_update (cancel : Bool) (envs : ImageDataType → Nat → LoadEnv)
    (texture_limit : Nat) (st : ImageManagerState) : ImageManagerState :=
  if ¬st.need_update then st
  else
    let st := allImageDataTypes.foldl
      (device_update_slots cancel envs texture_limit) st
    { st with need_update := false }

/-- Specification helper for the frame lemmas: the effect of one
`device_update` scan on a single slot's record, as a function of that
record alone. -/
def device_update_slot_result (cancel : Bool) (oiio : Bool) (env : LoadEnv)
    (texture_limit : Nat) (type : ImageDataType) (slot : Nat)
    (o : Option Image) : Option Image :=
  match o with
  | none => none
  | some img =>
      if img.users = 0 then none
      else if img.need_load then
        (if cancel then some img
         else some (load_result oiio env texture_limit type slot img))
      else some img

/-- Condition under which one `file_load_image` attempt on the dense path
succeeds: the decoder reads the file, the image is not degenerate, the
device buffer allocates, and the sparse-volume branch is not taken. -/
def load_succeeds (env : LoadEnv) (img : Image) : Bool :=
  env.generic_ok
    && (max (max img.metadata.width img.metadata.height) img.metadata.depth != 0)
    && env.alloc_ok
    && !(img.is_volume && env.sparse_found)

/-! ## Merge compositor (`render/merge.cpp`) -/

inductive MergeChannelOp where
  | NOP | COPY | SUM | AVERAGE
deriving DecidableEq, Repr, Inhabited

/-- `MergeImagePass` (`format` is the opaque `TypeDesc` tag). -/
structure MergeImagePass where
  channel_name : String
  format : Nat
  op : MergeChannelOp
  offset : Nat
  merge_offset : Nat
deriving DecidableEq, Repr, Inhabited

structure MergeImageLayer where
  name : String
  passes : List MergeImagePass
  samples : Int
deriving DecidableEq, Repr, Inhabited

/-- A `MergeImage` together with what its reader returns: the layout
fields of its `ImageSpec` and the float pixel data `read_image` yields
(length `width·height·nchannels`). -/
structure MergeImage where
  filepath : String
  width : Nat
  height : Nat
  nchannels : Nat
  layers : List MergeImageLayer
  pixels : List ℚ
deriving DecidableEq, Repr, Inhabited

/-- The channel-layout part of the output `ImageSpec`
(`nchannels`, `channelnames`, `channelformats`; invariantly
`nchannels = channelnames.length`). -/
structure MergeOutSpec where
  width : Nat
  height : Nat
  channelnames : List String
  channelformats : List Nat
  nchannels : Nat
deriving DecidableEq, Repr, Inhabited

/-- `string_startswith` (`util/util_string.h` helper used by the merge
parser). -/
def string_startswith (s pre : String) : Bool :=
  pre.isPrefixOf s

/-- `parse_channel_operation` from `render/merge.cpp`. -/
def parse_channel_operation (pass_name : String) : MergeChannelOp :=
  if pass_name == "Depth" || pass_name == "IndexMA" || pass_name == "IndexOB" ||
      string_startswith pass_name "Crypto" then
    MergeChannelOp.COPY
  else if string_startswith pass_name "Debug BVH" ||
      string_startswith pass_name "Debug Ray" ||
      string_startswith pass_name "Debug Render Time" then
    MergeChannelOp.SUM
  else
    MergeChannelOp.AVERAGE

/-- The inner "matching channel already exists in merged image" scan of
`merge_channels_metadata`. -/
def find_channel_index (name : String) : List String → Option Nat
  | [] => none
  | n :: rest => if n == name then some 0
                 else (find_channel_index name rest).map (· + 1)

/-- The per-pass body of `merge_channels_metadata`: share the merged offset
and accumulate the sample count on a hit (downgrading a second `COPY`
writer to `NOP`), or append a new output channel. -/
def merge_one_pass (samples : Int) (p : MergeImagePass) (out : MergeOutSpec)
    (totals : List Int) : MergeImagePass × MergeOutSpec × List Int :=
  match find_channel_index p.channel_name out.channelnames with
  | some i =>
      ({ p with
          merge_offset := i,
          op := if p.op = MergeChannelOp.COPY then MergeChannelOp.NOP else p.op },
       out, totals.set i (totals.getD i 0 + samples))
  | none =>
      ({ p with merge_offset := out.nchannels },
       { out with
          channelnames := out.channelnames ++ [p.channel_name],
          channelformats := out.channelformats ++ [p.format],
          nchannels := out.nchannels + 1 },
       totals ++ [samples])

def merge_passes_channels : Int → List MergeImagePass → MergeOutSpec → List Int →
    List MergeImagePass × MergeOutSpec × List Int
  | _, [], out, totals => ([], out, totals)
  | samples, p :: rest, out, totals =>
      let r := merge_one_pass samples p out totals
      let rr := merge_passes_channels samples rest r.2.1 r.2.2
      (r.1 :: rr.1, rr.2.1, rr.2.2)

def merge_layers_channels : List MergeImageLayer → MergeOutSpec → List Int →
    List MergeImageLayer × MergeOutSpec × List Int
  | [], out, totals => ([], out, totals)
  | l :: rest, out, totals =>
      let r := merge_passes_channels l.samples l.passes out totals
      let rr := merge_layers_channels rest r.2.1 r.2.2
      ({ l with passes := r.1 } :: rr.1, rr.2.1, rr.2.2)

def merge_images_channels : List MergeImage → MergeOutSpec → List Int →
    List MergeImage × MergeOutSpec × List Int
  | [], out, totals => ([], out, totals)
  | im :: rest, out, totals =>
      let r := merge_layers_channels im.layers out totals
      let rr := merge_images_channels rest r.2.1 r.2.2
      ({ im with layers := r.1 } :: rr.1, rr.2.1, rr.2.2)

/-- `merge_channels_metadata` from `render/merge.cpp` (the channel-list
merge: output spec starts from the first input's spec with the channels
cleared; passes are updated in place with their merge offsets and `COPY`
downgrades; `channel_total_samples` accumulates per output channel).  The
render-time attribute merging of the source only edits opaque metadata
strings and is not modelled. -/
def merge_channels_metadata (images : List MergeImage) :
    List MergeImage × MergeOutSpec × List Int :=
  let first := images.headD default
  merge_images_channels images
    { width := first.width, height := first.height,
      channelnames := [], channelformats := [], nchannels := 0 } []

/-- The pixel loop index set of `merge_pixels`:
`for (size_t i = 0; i < num_pixels; i += stride)` (the source never runs
this with `stride = 0`: the output spec always has at least one channel). -/
def stride_loop_indices (num_pixels stride : Nat) : List Nat :=
  if stride = 0 then []
  else (List.range ((num_pixels + stride - 1) / stride)).map (· * stride)

/-- The per-pass reduction of `merge_pixels`, with `stride` the output
channel count and `num_pixels` the input buffer length.  Note the
`AVERAGE` weight reads `channel_total_samples[pass.offset]`. -/
def merge_pass_pixels (stride num_pixels : Nat) (samples : Int)
    (channel_total_samples : List Int) (pixels : List ℚ) (p : MergeImagePass)
    (out_pixels : List ℚ) : List ℚ :=
  match p.op with
  | MergeChannelOp.NOP => out_pixels
  | MergeChannelOp.COPY =>
      (stride_loop_indices num_pixels stride).foldl
        (fun out i => out.set (i + p.merge_offset) (pixels.getD (i + p.offset) 0))
        out_pixels
  | MergeChannelOp.SUM =>
      (stride_loop_indices num_pixels stride).foldl
        (fun out i => out.set (i + p.merge_offset)
          (out.getD (i + p.merge_offset) 0 + pixels.getD (i + p.offset) 0))
        out_pixels
  | MergeChannelOp.AVERAGE =>
      let total_samples := channel_total_samples.getD p.offset 0
      let t : ℚ := (samples : ℚ) / (total_samples : ℚ)
      (stride_loop_indices num_pixels stride).foldl
        (fun out i => out.set (i + p.merge_offset)
          (out.getD (i + p.merge_offset) 0 + t * pixels.getD (i + p.offset) 0))
        out_pixels

/-- `merge_pixels` from `render/merge.cpp` (reads modelled as succeeding:
each input's float buffer is `image.pixels`).  The output buffer is zeroed
at `width·height·out_channels` floats. -/
def merge_pixels (images : List MergeImage) (out_spec : MergeOutSpec)
    (channel_total_samples : List Int) : List ℚ :=
  let out_pixels :=
    List.replicate (out_spec.width * out_spec.height * out_spec.nchannels) (0 : ℚ)
  images.foldl
    (fun out image =>
      image.layers.foldl
        (fun out layer =>
          let stride := out_spec.nchannels
          let num_pixels := image.pixels.length
          layer.passes.foldl
            (fun out p =>
              merge_pass_pixels stride num_pixels layer.samples
                channel_total_samples image.pixels p out)
            out)
        out)
    out_pixels

/-- `OIIO::Filesystem::extension`: the final dot-suffix of the path,
including the dot; empty if there is none. -/
def file_extension (p : String) : String :=
  match (p.splitOn ".").reverse with
  | e :: _ :: _ => "." ++ e
  | _ => ""

/-- The temporary path chosen by `save_output`:
`filepath + ".merge-tmp-" + unique_path() + extension`. -/
def merge_tmp_filepath (filepath uniq : String) : String :=
  filepath ++ (".merge-tmp-" ++ uniq) ++ file_extension filepath

/-- Contents of a file on disk: a completely written merged image, or the
partial data of an interrupted/failed write. -/
inductive MergeFileData where
  | complete (pixels : List ℚ)
  | truncated
deriving DecidableEq, Repr

/-- The two file-system locations `save_output` touches: the output path
and the (unique, hence initially absent) temporary path. -/
structure MergeFS where
  out_file : Option MergeFileData
  tmp_file : Option MergeFileData
deriving DecidableEq, Repr

/-- Oracle for `save_output`'s collaborator calls: `unique_path()` and the
outcomes of `ImageOutput::create`, `open`, `write_image`, `close` and
`Filesystem::rename`. -/
structure SaveEnv where
  uniq : String
  create_ok : Bool
  open_ok : Bool
  write_ok : Bool
  close_ok : Bool
  rename_ok : Bool
deriving Repr

/-- `save_output` from `render/merge.cpp`: write to the temporary path,
close, then rename onto the output; on failure after the temp exists,
remove it (`ImageOutput::create` and a failing `open` are modelled as
creating no file).  Returns `ok` and the resulting file system. -/
def save_output (env : SaveEnv) (filepath : String) (pixels : List ℚ)
    (fs : MergeFS) : Bool × MergeFS :=
  if ¬env.create_ok then (false, fs)
  else if ¬env.open_ok then (false, fs)
  else
    let fs := { fs with tmp_file := some (if env.write_ok then
        MergeFileData.complete pixels else MergeFileData.truncated) }
    let ok := env.write_ok && env.close_ok
    if ok then
      if env.rename_ok then
        (true, { out_file := fs.tmp_file, tmp_file := none })
      else
        (false, { fs with tmp_file := none })
    else
      (false, { fs with tmp_file := none })

/-! ## Concrete instances used by witnesses and counterexamples -/

/-- `StorageOps` of the `float` storage type (values exact rationals). -/
def opsQ : StorageOps ℚ :=
  { one := 1, cast_to_float := fun v => v, cast_from_float := fun v => v }

/-- A 2-pixel RGBA float working buffer whose second pixel has a non-finite
red channel. -/
def c1_buf : List FloatVal :=
  [.fin 1, .fin 1, .fin 1, .fin 1, .nonfinite, .fin 2, .fin 3, .fin 4]

/-- A sample loaded record occupying `FLOAT4` slot 0 (used by the
`get_image_metadata` witness). -/
def c10_img : Image :=
  { filename := "a.png"
    grid_name := ""
    builtin_data := 0
    metadata := { type := ImageDataType.FLOAT4, width := 2, height := 2,
                  depth := 1, channels := 4 }
    need_load := false
    animated := false
    frame := 0
    interpolation := InterpolationType.LINEAR
    extension := ExtensionType.REPEAT
    users := 1
    alpha_type := ImageAlphaType.AUTO
    colorspace := ""
    is_volume := false
    isovalue := 0
    mem := none
    mem_name := "" }

/-- A manager with one `FLOAT4` record in slot 0 and an empty slot 1. -/
def c10_state : ImageManagerState :=
  { images := fun t => if t = ImageDataType.FLOAT4 then [some c10_img, none] else []
    tex_num_images := fun t => if t = ImageDataType.FLOAT4 then 1 else 0
    need_update := false
    has_half_images := true
    max_num_images := 1024
    oiio_texture_system := false
    animation_frame := 0 }

/-- A live dirty record whose file cannot be decoded (used for the C2
failing input). -/
def c2_img : Image :=
  { filename := "missing.png"
    grid_name := ""
    builtin_data := 0
    metadata := { type := ImageDataType.FLOAT4, width := 4, height := 4,
                  depth := 1, channels := 4 }
    need_load := true
    animated := false
    frame := 0
    interpolation := InterpolationType.LINEAR
    extension := ExtensionType.REPEAT
    users := 1
    alpha_type := ImageAlphaType.AUTO
    colorspace := ""
    is_volume := false
    isovalue := 0
    mem := none
    mem_name := "" }

/-- Manager holding only `c2_img`, update pending. -/
def c2_state : ImageManagerState :=
  { images := fun t => if t = ImageDataType.FLOAT4 then [some c2_img] else []
    tex_num_images := fun t => if t = ImageDataType.FLOAT4 then 1 else 0
    need_update := true
    has_half_images := true
    max_num_images := 1024
    oiio_texture_system := false
    animation_frame := 0 }

/-- Loader oracle for a decode failure: `file_load_image_generic` fails
(missing file), everything else would have succeeded. -/
def c2_env : LoadEnv :=
  { generic_ok := false
    alloc_ok := true
    pixels := []
    is_cuda := false
    sparse_found := false
    sparse_pixels := []
    sparse_offsets := []
    grid_info_alloc_ok := true }

/-- A live dirty 1×1 record whose load would succeed (C7). -/
def c7_img : Image :=
  { filename := "a.png"
    grid_name := ""
    builtin_data := 0
    metadata := { type := ImageDataType.FLOAT4, width := 1, height := 1,
                  depth := 1, channels := 4 }
    need_load := true
    animated := false
    frame := 0
    interpolation := InterpolationType.LINEAR
    extension := ExtensionType.REPEAT
    users := 1
    alpha_type := ImageAlphaType.AUTO
    colorspace := ""
    is_volume := false
    isovalue := 0
    mem := none
    mem_name := "" }

/-- Manager holding only `c7_img`, update pending. -/
def c7_state : ImageManagerState :=
  { images := fun t => if t = ImageDataType.FLOAT4 then [some c7_img] else []
    tex_num_images := fun t => if t = ImageDataType.FLOAT4 then 1 else 0
    need_update := true
    has_half_images := true
    max_num_images := 1024
    oiio_texture_system := false
    animation_frame := 0 }

/-- Loader oracle where every collaborator call succeeds. -/
def c7_env : LoadEnv :=
  { generic_ok := true
    alloc_ok := true
    pixels := [1, 1, 1, 1]
    is_cuda := false
    sparse_found := false
    sparse_pixels := []
    sparse_offsets := []
    grid_info_alloc_ok := true }

/-- Per-record loader oracles for `device_update` (all records succeed). -/
def c7_envs : ImageDataType → Nat → LoadEnv := fun _ _ => c7_env

/-- First merge input (C3): a 1×1 EXR with channels
`[LayA.P.R, LayB.Q.R]`, layer samples `LayA = 10`, `LayB = 30`, pixel
values `(0.4, 0.9)`; the pass fields are exactly what `parse_channels`
produces (layers in `std::map` name order, `offset = merge_offset =`
channel index in the file). -/
def c3_file1 : MergeImage :=
  { filepath := "render1.exr"
    width := 1
    height := 1
    nchannels := 2
    layers := [
      { name := "LayA", samples := 10,
        passes := [{ channel_name := "LayA.P.R", format := 0,
                     op := parse_channel_operation "P",
                     offset := 0, merge_offset := 0 }] },
      { name := "LayB", samples := 30,
        passes := [{ channel_name := "LayB.Q.R", format := 0,
                     op := parse_channel_operation "Q",
                     offset := 1, merge_offset := 1 }] }]
    pixels := [2/5, 9/10] }

/-- Second merge input (C3): same two channels but stored in the opposite
file order `[LayB.Q.R, LayA.P.R]`, samples `LayA = 10`, `LayB = 30`,
pixel values `(0.6, 0.8)`. -/
def c3_file2 : MergeImage :=
  { filepath := "render2.exr"
    width := 1
    height := 1
    nchannels := 2
    layers := [
      { name := "LayA", samples := 10,
        passes := [{ channel_name := "LayA.P.R", format := 0,
                     op := parse_channel_operation "P",
                     offset := 1, merge_offset := 1 }] },
      { name := "LayB", samples := 30,
        passes := [{ channel_name := "LayB.Q.R", format := 0,
                     op := parse_channel_operation "Q",
                     offset := 0, merge_offset := 0 }] }]
    pixels := [3/5, 4/5] }

/-- A fresh identity (distinct from `c10_img`'s) to add (C4/C5 witnesses). -/
def c4_args : AddImageArgs :=
  { filename := "b.png"
    grid_name := ""
    builtin_data := 0
    animated := false
    frame := 0
    interpolation := InterpolationType.LINEAR
    extension := ExtensionType.REPEAT
    alpha_type := ImageAlphaType.AUTO
    colorspace := ""
    is_volume := false
    isovalue := 0
    metadata := { type := ImageDataType.FLOAT4, width := 2, height := 2,
                  depth := 1, channels := 4 } }

/-- Manager exactly at its cap (`max_num_images = 1`, one record). -/
def c4_state_at_cap : ImageManagerState :=
  { images := fun t => if t = ImageDataType.FLOAT4 then [some c10_img] else []
    tex_num_images := fun t => if t = ImageDataType.FLOAT4 then 1 else 0
    need_update := false
    has_half_images := true
    max_num_images := 1
    oiio_texture_system := false
    animation_frame := 0 }

/-- Manager one past its cap (`max_num_images = 0`, one record). -/
def c4_state_over_cap : ImageManagerState :=
  { images := fun t => if t = ImageDataType.FLOAT4 then [some c10_img] else []
    tex_num_images := fun t => if t = ImageDataType.FLOAT4 then 1 else 0
    need_update := false
    has_half_images := true
    max_num_images := 0
    oiio_texture_system := false
    animation_frame := 0 }

/-- Save oracle with a failing `close` (C6 witness). -/
def c6_env : SaveEnv :=
  { uniq := "u1"
    create_ok := true
    open_ok := true
    write_ok := true
    close_ok := false
    rename_ok := true }

/-- A file system with a pre-existing (partially written) output file and
no temp file (C6 witness). -/
def c6_fs : MergeFS :=
  { out_file := some MergeFileData.truncated
    tmp_file := none }

/-! ### Theorems: handles, list helpers, per-pixel alpha tracking -/

theorem ofTag_tag (t : ImageDataType) : ImageDataType.ofTag t.tag = t := by
  cases t <;> rfl

theorem tag_lt_eight (t : ImageDataType) : t.tag < 8 := by
  cases t <;> decide

/-- Round trip: decoding an encoded handle recovers the type and slot. -/
theorem flattened_round_trip (slot : Nat) (type : ImageDataType) :
    flattened_slot_to_type_index (type_index_to_flattened_slot slot type) =
      (type, slot) := by
  have htag := tag_lt_eight type
  have h8 : (2 : Nat) ^ IMAGE_DATA_TYPE_SHIFT = 8 := rfl
  show (ImageDataType.ofTag
          ((slot * 2 ^ IMAGE_DATA_TYPE_SHIFT + type.tag) % 2 ^ IMAGE_DATA_TYPE_SHIFT),
        (slot * 2 ^ IMAGE_DATA_TYPE_SHIFT + type.tag) / 2 ^ IMAGE_DATA_TYPE_SHIFT) =
      (type, slot)
  have hmod : (slot * 2 ^ IMAGE_DATA_TYPE_SHIFT + type.tag) % 2 ^ IMAGE_DATA_TYPE_SHIFT
      = type.tag := by
    rw [h8]; omega
  have hdiv : (slot * 2 ^ IMAGE_DATA_TYPE_SHIFT + type.tag) / 2 ^ IMAGE_DATA_TYPE_SHIFT
      = slot := by
    rw [h8]; omega
  rw [hmod, hdiv, ofTag_tag]

/-- Encoded handles are never the invalid handle `-1`. -/
theorem type_index_to_flattened_slot_ne_neg_one (slot : Nat) (type : ImageDataType) :
    type_index_to_flattened_slot slot type ≠ -1 := by
  show ((slot * 2 ^ IMAGE_DATA_TYPE_SHIFT + type.tag : Nat) : Int) ≠ -1
  have h8 : (2 : Nat) ^ IMAGE_DATA_TYPE_SHIFT = 8 := rfl
  rw [h8]
  omega

theorem getD_set_self {α : Type _} :
    ∀ (l : List α) (i : Nat) (x d : α), i < l.length → (l.set i x).getD i d = x
  | [], _, _, _, h => by simp at h
  | _ :: _, 0, _, _, _ => rfl
  | a :: l, i + 1, x, d, h => by
      show (l.set i x).getD i d = x
      exact getD_set_self l i x d (by simpa using h)

theorem getD_set_ne {α : Type _} :
    ∀ (l : List α) (i j : Nat) (x d : α), i ≠ j → (l.set i x).getD j d = l.getD j d
  | [], _, _, _, _, _ => rfl
  | _ :: _, 0, 0, _, _, h => absurd rfl h
  | _ :: _, 0, _ + 1, _, _, _ => rfl
  | _ :: _, _ + 1, 0, _, _, _ => rfl
  | a :: l, i + 1, j + 1, x, d, h => by
      show (l.set i x).getD j d = l.getD j d
      exact getD_set_ne l i j x d (by omega)

theorem getD_eq_default_of_le {α : Type _} :
    ∀ (l : List α) (i : Nat) (d : α), l.length ≤ i → l.getD i d = d
  | [], _, _, _ => rfl
  | _ :: l, i + 1, d, h => by
      show l.getD i d = d
      exact getD_eq_default_of_le l i d (by simpa using h)
  | _ :: _, 0, _, h => by simp at h

theorem lt_length_of_getD_ne_default {α : Type _} (l : List α) (i : Nat) (d : α)
    (h : l.getD i d ≠ d) : i < l.length := by
  by_contra hc
  exact h (getD_eq_default_of_le l i d (by omega))

theorem foldl_range_succ {β : Type _} (f : β → Nat → β) (a : β) (k : Nat) :
    (List.range (k + 1)).foldl f a = f ((List.range k).foldl f a) k := by
  rw [List.range_succ, List.foldl_append, List.foldl_cons, List.foldl_nil]

theorem cmyk_write_length {S : Type} (ops : StorageOps S) (dflt : S) (b : List S)
    (i : Nat) : (cmyk_write ops dflt b i).length = b.length := by
  simp [cmyk_write, List.length_set]

theorem cmyk_write_alpha {S : Type} (ops : StorageOps S) (dflt d : S) (b : List S)
    (i : Nat) (h : i * 4 + 3 < b.length) :
    (cmyk_write ops dflt b i).getD (i * 4 + 3) d = ops.one := by
  simp only [cmyk_write]
  rw [getD_set_self]
  simp only [List.length_set]
  exact h

theorem cmyk_write_preserve {S : Type} (ops : StorageOps S) (dflt d : S) (b : List S)
    (i j : Nat) (h : ∀ c, c < 4 → i * 4 + c ≠ j) :
    (cmyk_write ops dflt b i).getD j d = b.getD j d := by
  simp only [cmyk_write]
  rw [getD_set_ne _ _ _ _ _ (h 3 (by omega)), getD_set_ne _ _ _ _ _ (h 2 (by omega)),
    getD_set_ne _ _ _ _ _ (h 1 (by omega)), getD_set_ne _ _ _ _ _ (h 0 (by omega))]

theorem grayscale_alpha_write_length {S : Type} (dflt : S) (b : List S) (i : Nat) :
    (grayscale_alpha_write dflt b i).length = b.length := by
  simp [grayscale_alpha_write, List.length_set]

theorem grayscale_alpha_write_alpha {S : Type} (dflt : S) (b : List S) (i : Nat)
    (h : i * 4 + 3 < b.length) :
    (grayscale_alpha_write dflt b i).getD (i * 4 + 3) dflt = b.getD (i * 2 + 1) dflt := by
  simp only [grayscale_alpha_write]
  rw [getD_set_ne _ _ _ _ _ (by omega), getD_set_ne _ _ _ _ _ (by omega),
    getD_set_ne _ _ _ _ _ (by omega), getD_set_self _ _ _ _ h]

theorem grayscale_alpha_write_preserve {S : Type} (dflt d : S) (b : List S)
    (i j : Nat) (h : ∀ c, c < 4 → i * 4 + c ≠ j) :
    (grayscale_alpha_write dflt b i).getD j d = b.getD j d := by
  simp only [grayscale_alpha_write]
  rw [getD_set_ne _ _ _ _ _ (h 0 (by omega)), getD_set_ne _ _ _ _ _ (h 1 (by omega)),
    getD_set_ne _ _ _ _ _ (h 2 (by omega)), getD_set_ne _ _ _ _ _ (h 3 (by omega))]

theorem rgb_write_length {S : Type} (ops : StorageOps S) (dflt : S) (b : List S)
    (i : Nat) : (rgb_write ops dflt b i).length = b.length := by
  simp [rgb_write, List.length_set]

theorem rgb_write_alpha {S : Type} (ops : StorageOps S) (dflt d : S) (b : List S)
    (i : Nat) (h : i * 4 + 3 < b.length) :
    (rgb_write ops dflt b i).getD (i * 4 + 3) d = ops.one := by
  simp only [rgb_write]
  rw [getD_set_ne _ _ _ _ _ (by omega), getD_set_ne _ _ _ _ _ (by omega),
    getD_set_ne _ _ _ _ _ (by omega), getD_set_self _ _ _ _ h]

theorem rgb_write_preserve {S : Type} (ops : StorageOps S) (dflt d : S) (b : List S)
    (i j : Nat) (h : ∀ c, c < 4 → i * 4 + c ≠ j) :
    (rgb_write ops dflt b i).getD j d = b.getD j d := by
  simp only [rgb_write]
  rw [getD_set_ne _ _ _ _ _ (h 0 (by omega)), getD_set_ne _ _ _ _ _ (h 1 (by omega)),
    getD_set_ne _ _ _ _ _ (h 2 (by omega)), getD_set_ne _ _ _ _ _ (h 3 (by omega))]

theorem grayscale_write_length {S : Type} (ops : StorageOps S) (dflt : S) (b : List S)
    (i : Nat) : (grayscale_write ops dflt b i).length = b.length := by
  simp [grayscale_write, List.length_set]

theorem grayscale_write_alpha {S : Type} (ops : StorageOps S) (dflt d : S) (b : List S)
    (i : Nat) (h : i * 4 + 3 < b.length) :
    (grayscale_write ops dflt b i).getD (i * 4 + 3) d = ops.one := by
  simp only [grayscale_write]
  rw [getD_set_ne _ _ _ _ _ (by omega), getD_set_ne _ _ _ _ _ (by omega),
    getD_set_ne _ _ _ _ _ (by omega), getD_set_self _ _ _ _ h]

theorem grayscale_write_preserve {S : Type} (ops : StorageOps S) (dflt d : S)
    (b : List S) (i j : Nat) (h : ∀ c, c < 4 → i * 4 + c ≠ j) :
    (grayscale_write ops dflt b i).getD j d = b.getD j d := by
  simp only [grayscale_write]
  rw [getD_set_ne _ _ _ _ _ (h 0 (by omega)), getD_set_ne _ _ _ _ _ (h 1 (by omega)),
    getD_set_ne _ _ _ _ _ (h 2 (by omega)), getD_set_ne _ _ _ _ _ (h 3 (by omega))]

/-- Invariant for the expansion loops whose per-pixel write stores the unit
value into the alpha channel: after processing the pixels
`num_pixels-1, ..., num_pixels-k`, the buffer length is unchanged and every
processed pixel's alpha is the unit value. -/
theorem loop_alpha_one {S : Type} (one d : S) (W : List S → Nat → List S)
    (HL : ∀ b i, (W b i).length = b.length)
    (HA : ∀ (b : List S) (i : Nat), i * 4 + 3 < b.length →
      (W b i).getD (i * 4 + 3) d = one)
    (HP : ∀ (b : List S) (i j : Nat), (∀ c, c < 4 → i * 4 + c ≠ j) →
      (W b i).getD j d = b.getD j d)
    (np : Nat) (buf : List S) (hlen : buf.length = 4 * np) :
    ∀ k, k ≤ np →
      ((List.range k).foldl (fun b pixel => W b (np - 1 - pixel)) buf).length
          = buf.length ∧
      ∀ p, np - k ≤ p → p < np →
        ((List.range k).foldl (fun b pixel => W b (np - 1 - pixel)) buf).getD
            (4 * p + 3) d = one := by
  intro k
  induction k with
  | zero =>
    intro _
    exact ⟨rfl, fun p hp1 hp2 => absurd hp1 (by omega)⟩
  | succ k ih =>
    intro hk
    obtain ⟨ihlen, ihalpha⟩ := ih (by omega)
    rw [foldl_range_succ]
    constructor
    · rw [HL, ihlen]
    · intro p hp1 hp2
      by_cases hpi : p = np - 1 - k
      · subst hpi
        have hidx : 4 * (np - 1 - k) + 3 = (np - 1 - k) * 4 + 3 := by ring
        rw [hidx]
        exact HA _ _ (by rw [ihlen, hlen]; omega)
      · rw [HP _ _ _ (by intro c hc; omega)]
        exact ihalpha p (by omega) hp2

/-- Invariant for the grayscale+alpha expansion loop: the back-to-front
iteration never overwrites a location it still has to read, so each output
alpha is the corresponding *original* input alpha sample. -/
theorem grayscale_alpha_loop_aux {S : Type} (dflt : S) (np : Nat) (buf : List S)
    (hlen : buf.length = 4 * np) :
    ∀ k, k ≤ np →
      ((List.range k).foldl (fun b pixel => grayscale_alpha_write dflt b (np - 1 - pixel))
          buf).length = buf.length ∧
      (∀ j, j < 2 * (np - k) →
        ((List.range k).foldl (fun b pixel => grayscale_alpha_write dflt b (np - 1 - pixel))
            buf).getD j dflt = buf.getD j dflt) ∧
      ∀ p, np - k ≤ p → p < np →
        ((List.range k).foldl (fun b pixel => grayscale_alpha_write dflt b (np - 1 - pixel))
            buf).getD (4 * p + 3) dflt = buf.getD (2 * p + 1) dflt := by
  intro k
  induction k with
  | zero =>
    exact fun _ => ⟨rfl, fun j _ => rfl, fun p hp1 hp2 => absurd hp1 (by omega)⟩
  | succ k ih =>
    intro hk
    obtain ⟨ihlen, ihlow, ihalpha⟩ := ih (by omega)
    rw [foldl_range_succ]
    refine ⟨by rw [grayscale_alpha_write_length, ihlen], ?_, ?_⟩
    · intro j hj
      rw [grayscale_alpha_write_preserve _ _ _ _ _ (by intro c hc; omega)]
      exact ihlow j (by omega)
    · intro p hp1 hp2
      by_cases hpi : p = np - 1 - k
      · subst hpi
        have hidx : 4 * (np - 1 - k) + 3 = (np - 1 - k) * 4 + 3 := by ring
        rw [hidx, grayscale_alpha_write_alpha _ _ _ (by rw [ihlen, hlen]; omega)]
        have hread : (np - 1 - k) * 2 + 1 = 2 * (np - 1 - k) + 1 := by ring
        rw [hread, ihlow _ (by omega)]
      · rw [grayscale_alpha_write_preserve _ _ _ _ _ (by intro c hc; omega)]
        exact ihalpha p (by omega) hp2

theorem cmyk_to_rgba_length {S : Type} (ops : StorageOps S) (dflt : S) (np : Nat)
    (buf : List S) (hlen : buf.length = 4 * np) :
    (cmyk_to_rgba ops dflt np buf).length = buf.length :=
  (loop_alpha_one ops.one dflt (cmyk_write ops dflt) (cmyk_write_length ops dflt)
    (cmyk_write_alpha ops dflt dflt) (cmyk_write_preserve ops dflt dflt) np buf hlen
    np le_rfl).1

theorem cmyk_to_rgba_alpha {S : Type} (ops : StorageOps S) (dflt : S) (np : Nat)
    (buf : List S) (hlen : buf.length = 4 * np) (p : Nat) (hp : p < np) :
    (cmyk_to_rgba ops dflt np buf).getD (4 * p + 3) dflt = ops.one :=
  (loop_alpha_one ops.one dflt (cmyk_write ops dflt) (cmyk_write_length ops dflt)
    (cmyk_write_alpha ops dflt dflt) (cmyk_write_preserve ops dflt dflt) np buf hlen
    np le_rfl).2 p (by omega) hp

theorem rgb_to_rgba_length {S : Type} (ops : StorageOps S) (dflt : S) (np : Nat)
    (buf : List S) (hlen : buf.length = 4 * np) :
    (rgb_to_rgba ops dflt np buf).length = buf.length :=
  (loop_alpha_one ops.one dflt (rgb_write ops dflt) (rgb_write_length ops dflt)
    (rgb_write_alpha ops dflt dflt) (rgb_write_preserve ops dflt dflt) np buf hlen
    np le_rfl).1

theorem rgb_to_rgba_alpha {S : Type} (ops : StorageOps S) (dflt : S) (np : Nat)
    (buf : List S) (hlen : buf.length = 4 * np) (p : Nat) (hp : p < np) :
    (rgb_to_rgba ops dflt np buf).getD (4 * p + 3) dflt = ops.one :=
  (loop_alpha_one ops.one dflt (rgb_write ops dflt) (rgb_write_length ops dflt)
    (rgb_write_alpha ops dflt dflt) (rgb_write_preserve ops dflt dflt) np buf hlen
    np le_rfl).2 p (by omega) hp

theorem grayscale_to_rgba_length {S : Type} (ops : StorageOps S) (dflt : S) (np : Nat)
    (buf : List S) (hlen : buf.length = 4 * np) :
    (grayscale_to_rgba ops dflt np buf).length = buf.length :=
  (loop_alpha_one ops.one dflt (grayscale_write ops dflt) (grayscale_write_length ops dflt)
    (grayscale_write_alpha ops dflt dflt) (grayscale_write_preserve ops dflt dflt) np buf
    hlen np le_rfl).1

theorem grayscale_to_rgba_alpha {S : Type} (ops : StorageOps S) (dflt : S) (np : Nat)
    (buf : List S) (hlen : buf.length = 4 * np) (p : Nat) (hp : p < np) :
    (grayscale_to_rgba ops dflt np buf).getD (4 * p + 3) dflt = ops.one :=
  (loop_alpha_one ops.one dflt (grayscale_write ops dflt) (grayscale_write_length ops dflt)
    (grayscale_write_alpha ops dflt dflt) (grayscale_write_preserve ops dflt dflt) np buf
    hlen np le_rfl).2 p (by omega) hp

theorem grayscale_alpha_to_rgba_length {S : Type} (dflt : S) (np : Nat) (buf : List S)
    (hlen : buf.length = 4 * np) :
    (grayscale_alpha_to_rgba dflt np buf).length = buf.length :=
  (grayscale_alpha_loop_aux dflt np buf hlen np le_rfl).1

theorem grayscale_alpha_to_rgba_alpha {S : Type} (dflt : S) (np : Nat) (buf : List S)
    (hlen : buf.length = 4 * np) (p : Nat) (hp : p < np) :
    (grayscale_alpha_to_rgba dflt np buf).getD (4 * p + 3) dflt
      = buf.getD (2 * p + 1) dflt :=
  (grayscale_alpha_loop_aux dflt np buf hlen np le_rfl).2.2 p (by omega) hp

theorem alpha_ignore_override_length {S : Type} (ops : StorageOps S) (d : S) (np : Nat)
    (buf : List S) (hlen : buf.length = 4 * np) :
    (alpha_ignore_override ops np buf).length = buf.length :=
  (loop_alpha_one ops.one d (fun b i => b.set (i * 4 + 3) ops.one)
    (fun b i => List.length_set b _ _)
    (fun b i h => getD_set_self b _ _ _ h)
    (fun b i j h => getD_set_ne b _ _ _ _ (h 3 (by omega))) np buf hlen np le_rfl).1

theorem alpha_ignore_override_alpha {S : Type} (ops : StorageOps S) (d : S) (np : Nat)
    (buf : List S) (hlen : buf.length = 4 * np) (p : Nat) (hp : p < np) :
    (alpha_ignore_override ops np buf).getD (4 * p + 3) d = ops.one :=
  (loop_alpha_one ops.one d (fun b i => b.set (i * 4 + 3) ops.one)
    (fun b i => List.length_set b _ _)
    (fun b i h => getD_set_self b _ _ _ h)
    (fun b i j h => getD_set_ne b _ _ _ _ (h 3 (by omega))) np buf hlen np le_rfl).2
    p (by omega) hp

/-- Closed form of the alpha channel produced by the RGBA channel stage. -/
theorem rgba_channel_stage_alpha {S : Type} (ops : StorageOps S) (dflt : S)
    (cmyk : Bool) (components : Nat) (alpha_type : ImageAlphaType) (np : Nat)
    (buf : List S) (p : Nat) (hlen : buf.length = 4 * np) (hp : p < np) :
    (rgba_channel_stage ops dflt cmyk components alpha_type np buf).getD (4 * p + 3) dflt
      = if alpha_type = ImageAlphaType.IGNORE then ops.one
        else if cmyk then ops.one
        else if components = 2 then buf.getD (2 * p + 1) dflt
        else if components = 3 then ops.one
        else if components = 1 then ops.one
        else buf.getD (4 * p + 3) dflt := by
  have hexp :
      (if cmyk then cmyk_to_rgba ops dflt np buf
       else if components = 2 then grayscale_alpha_to_rgba dflt np buf
       else if components = 3 then rgb_to_rgba ops dflt np buf
       else if components = 1 then grayscale_to_rgba ops dflt np buf
       else buf).length = 4 * np := by
    split_ifs
    · rw [cmyk_to_rgba_length ops dflt np buf hlen, hlen]
    · rw [grayscale_alpha_to_rgba_length dflt np buf hlen, hlen]
    · rw [rgb_to_rgba_length ops dflt np buf hlen, hlen]
    · rw [grayscale_to_rgba_length ops dflt np buf hlen, hlen]
    · exact hlen
  have hexpa :
      (if cmyk then cmyk_to_rgba ops dflt np buf
       else if components = 2 then grayscale_alpha_to_rgba dflt np buf
       else if components = 3 then rgb_to_rgba ops dflt np buf
       else if components = 1 then grayscale_to_rgba ops dflt np buf
       else buf).getD (4 * p + 3) dflt
        = if cmyk then ops.one
          else if components = 2 then buf.getD (2 * p + 1) dflt
          else if components = 3 then ops.one
          else if components = 1 then ops.one
          else buf.getD (4 * p + 3) dflt := by
    split_ifs
    · exact cmyk_to_rgba_alpha ops dflt np buf hlen p hp
    · exact grayscale_alpha_to_rgba_alpha dflt np buf hlen p hp
    · exact rgb_to_rgba_alpha ops dflt np buf hlen p hp
    · exact grayscale_to_rgba_alpha ops dflt np buf hlen p hp
    · rfl
  unfold rgba_channel_stage
  by_cases hig : alpha_type = ImageAlphaType.IGNORE
  · rw [if_pos hig, if_pos hig]
    exact alpha_ignore_override_alpha ops dflt np _ hexp p hp
  · rw [if_neg hig, if_neg hig]
    exact hexpa

/-! ### Slot-table counting lemmas -/

theorem count_records_append (l m : List (Option Image)) :
    count_records (l ++ m) = count_records l + count_records m := by
  simp [count_records, List.filter_append]

theorem set_append_length {α : Type _} :
    ∀ (l : List α) (d x : α), (l ++ [d]).set l.length x = l ++ [x]
  | [], _, _ => rfl
  | a :: l, d, x => congrArg (a :: ·) (set_append_length l d x)

theorem count_records_set_none_to_some :
    ∀ (l : List (Option Image)) (f : Nat) (x : Image), f < l.length →
      l.getD f none = none →
      count_records (l.set f (some x)) = count_records l + 1
  | [], f, x, h, _ => absurd h (by simp)
  | o :: l, 0, x, _, hemp => by
      have : o = none := hemp
      subst this
      simp [count_records, List.filter]
  | o :: l, f + 1, x, h, hemp => by
      have ih := count_records_set_none_to_some l f x (by simpa using h) hemp
      cases o <;> simp_all [count_records, List.filter]

theorem count_records_set_some_of_isSome :
    ∀ (l : List (Option Image)) (f : Nat) (x : Image),
      (l.getD f none).isSome = true →
      count_records (l.set f (some x)) = count_records l
  | [], f, x, h => by simp [List.getD] at h
  | o :: l, 0, x, h => by
      have : o.isSome = true := h
      cases o <;> simp_all [count_records, List.filter]
  | o :: l, f + 1, x, h => by
      have ih := count_records_set_some_of_isSome l f x h
      cases o <;> simp_all [count_records, List.filter]

theorem find_free_slot_spec :
    ∀ l : List (Option Image),
      find_free_slot l = l.length ∨
      (find_free_slot l < l.length ∧ l.getD (find_free_slot l) none = none)
  | [] => Or.inl rfl
  | none :: l => Or.inr ⟨by simp [find_free_slot], rfl⟩
  | some img :: l => by
      rcases find_free_slot_spec l with h | ⟨h1, h2⟩
      · exact Or.inl (by simp [find_free_slot, h])
      · refine Or.inr ⟨by simp [find_free_slot]; omega, ?_⟩
        show l.getD (find_free_slot l) none = none
        exact h2

theorem getD_append_length {α : Type _} :
    ∀ (l : List α) (x d : α), (l ++ [x]).getD l.length d = x
  | [], _, _ => rfl
  | a :: l, x, d => getD_append_length l x d

/-- Summation over the eight pixel kinds when exactly one entry is
replaced. -/
theorem sum_allTypes_override (f g : ImageDataType → Nat) (type : ImageDataType)
    (v : Nat) (hg : ∀ t, g t = if t = type then v else f t) :
    (allImageDataTypes.map g).sum + f type = (allImageDataTypes.map f).sum + v := by
  cases type <;> simp [allImageDataTypes, hg] <;> omega

/-! ### `scan_update` / `find_image` lemmas -/

theorem image_hit_update_users (img : Image) (a : AddImageArgs) :
    (image_hit_update img a).users = img.users + 1 := by
  simp only [image_hit_update]
  split_ifs <;> rfl

theorem image_hit_update_equals (img : Image) (a : AddImageArgs)
    (h : image_equals img a.filename a.grid_name a.builtin_data a.interpolation
        a.extension a.alpha_type a.colorspace = true) :
    image_equals (image_hit_update img a) a.filename a.grid_name a.builtin_data
        a.interpolation a.extension a.alpha_type a.colorspace = true := by
  simp only [image_equals, Bool.and_eq_true, beq_iff_eq] at h ⊢
  obtain ⟨⟨⟨⟨⟨⟨h1, h2⟩, h3⟩, h4⟩, h5⟩, h6⟩, h7⟩ := h
  simp only [image_hit_update]
  split_ifs <;> simp_all

theorem new_image_record_equals (a : AddImageArgs) :
    image_equals (new_image_record a) a.filename a.grid_name a.builtin_data
      a.interpolation a.extension a.alpha_type a.colorspace = true := by
  simp [image_equals, new_image_record]

/-- What a successful identity scan tells us: the first matching record,
the shape of the updated vector, and — because the hit update keeps the
identity fields — what a *second* scan of the updated vector produces. -/
theorem scan_update_some_spec (a : AddImageArgs) :
    ∀ (l : List (Option Image)) (s : Nat) (l' : List (Option Image)),
      scan_update a l = some (s, l') →
      ∃ img,
        find_image a l = some img ∧
        l.getD s none = some img ∧
        l'.length = l.length ∧
        count_records l' = count_records l ∧
        find_image a l' = some (image_hit_update img a) ∧
        scan_update a l' = some (s,
          l'.set s (some (image_hit_update (image_hit_update img a) a)))
  | [], s, l', h => by simp [scan_update] at h
  | none :: rest, s, l', h => by
      cases hrest : scan_update a rest with
      | none => rw [scan_update, hrest] at h; simp at h
      | some p =>
        obtain ⟨ps, pl⟩ := p
        rw [scan_update, hrest] at h
        simp only [Option.map, Option.some.injEq, Prod.mk.injEq] at h
        obtain ⟨hs, hl'⟩ := h
        subst hs
        subst hl'
        obtain ⟨img, hf, hget, hlen, hcnt, hf', hscan'⟩ :=
          scan_update_some_spec a rest ps pl hrest
        refine ⟨img, hf, hget, by simpa using hlen, ?_, hf', ?_⟩
        · simpa [count_records, List.filter] using hcnt
        · show (scan_update a pl).map (fun p => (p.1 + 1, none :: p.2))
            = some (ps + 1, (none :: pl).set (ps + 1)
                (some (image_hit_update (image_hit_update img a) a)))
          rw [hscan']
          rfl
  | some img0 :: rest, s, l', h => by
      by_cases hm : image_equals img0 a.filename a.grid_name a.builtin_data
          a.interpolation a.extension a.alpha_type a.colorspace = true
      · rw [scan_update, if_pos hm] at h
        simp only [Option.some.injEq, Prod.mk.injEq] at h
        obtain ⟨hs, hl'⟩ := h
        subst hs
        subst hl'
        refine ⟨img0, ?_, rfl, rfl, ?_, ?_, ?_⟩
        · rw [find_image, if_pos hm]
        · simp [count_records, List.filter]
        · rw [find_image, if_pos (image_hit_update_equals img0 a hm)]
        · rw [scan_update, if_pos (image_hit_update_equals img0 a hm)]
          rfl
      · cases hrest : scan_update a rest with
        | none => rw [scan_update, if_neg hm, hrest] at h; simp at h
        | some p =>
          obtain ⟨ps, pl⟩ := p
          rw [scan_update, if_neg hm, hrest] at h
          simp only [Option.map, Option.some.injEq, Prod.mk.injEq] at h
          obtain ⟨hs, hl'⟩ := h
          subst hs
          subst hl'
          obtain ⟨img, hf, hget, hlen, hcnt, hf', hscan'⟩ :=
            scan_update_some_spec a rest ps pl hrest
          refine ⟨img, ?_, hget, by simpa using hlen, ?_, ?_, ?_⟩
          · rw [find_image, if_neg hm]; exact hf
          · simpa [count_records, List.filter] using hcnt
          · rw [find_image, if_neg hm]; exact hf'
          · show (scan_update a (some img0 :: pl))
              = some (ps + 1, (some img0 :: pl).set (ps + 1)
                  (some (image_hit_update (image_hit_update img a) a)))
            rw [scan_update, if_neg hm, hscan']
            rfl

theorem find_image_eq_none_of_scan_update_eq_none (a : AddImageArgs) :
    ∀ l : List (Option Image), scan_update a l = none → find_image a l = none
  | [], _ => rfl
  | none :: rest, h => by
      rw [scan_update] at h
      rw [find_image]
      exact find_image_eq_none_of_scan_update_eq_none a rest
        (by cases hrest : scan_update a rest <;> simp [hrest] at h ⊢)
  | some img0 :: rest, h => by
      by_cases hm : image_equals img0 a.filename a.grid_name a.builtin_data
          a.interpolation a.extension a.alpha_type a.colorspace = true
      · rw [scan_update, if_pos hm] at h
        cases h
      · rw [scan_update, if_neg hm] at h
        rw [find_image, if_neg hm]
        exact find_image_eq_none_of_scan_update_eq_none a rest
          (by cases hrest : scan_update a rest <;> simp [hrest] at h ⊢)

/-- Inserting the freshly populated record into a free slot of a vector
with no matching record: the next scan hits exactly that slot. -/
theorem scan_update_insert_set (a : AddImageArgs) :
    ∀ (l : List (Option Image)) (f : Nat), scan_update a l = none →
      f < l.length →
      scan_update a (l.set f (some (new_image_record a)))
        = some (f, (l.set f (some (new_image_record a))).set f
            (some (image_hit_update (new_image_record a) a))) ∧
      find_image a (l.set f (some (new_image_record a)))
        = some (new_image_record a)
  | [], f, _, hf => absurd hf (by simp)
  | o :: rest, 0, _, _ => by
      constructor
      · show scan_update a (some (new_image_record a) :: rest) = _
        rw [scan_update, if_pos (new_image_record_equals a)]
        rfl
      · show find_image a (some (new_image_record a) :: rest) = _
        rw [find_image, if_pos (new_image_record_equals a)]
  | none :: rest, f + 1, h, hf => by
      have hrest : scan_update a rest = none := by
        rw [scan_update] at h
        cases hr : scan_update a rest <;> simp [hr] at h ⊢
      obtain ⟨ih1, ih2⟩ := scan_update_insert_set a rest f hrest (by simpa using hf)
      constructor
      · show (scan_update a (rest.set f (some (new_image_record a)))).map
            (fun p => (p.1 + 1, none :: p.2)) = _
        rw [ih1]
        rfl
      · show find_image a (rest.set f (some (new_image_record a))) = _
        exact ih2
  | some img0 :: rest, f + 1, h, hf => by
      have hm : ¬ image_equals img0 a.filename a.grid_name a.builtin_data
          a.interpolation a.extension a.alpha_type a.colorspace = true := by
        intro hm
        rw [scan_update, if_pos hm] at h
        cases h
      have hrest : scan_update a rest = none := by
        rw [scan_update, if_neg hm] at h
        cases hr : scan_update a rest <;> simp [hr] at h ⊢
      obtain ⟨ih1, ih2⟩ := scan_update_insert_set a rest f hrest (by simpa using hf)
      constructor
      · show scan_update a (some img0 :: rest.set f (some (new_image_record a))) = _
        rw [scan_update, if_neg hm, ih1]
        rfl
      · show find_image a (some img0 :: rest.set f (some (new_image_record a))) = _
        rw [find_image, if_neg hm]
        exact ih2

/-- Appending the freshly populated record past the end of a vector with
no matching record. -/
theorem scan_update_insert_append (a : AddImageArgs) :
    ∀ l : List (Option Image), scan_update a l = none →
      scan_update a (l ++ [some (new_image_record a)])
        = some (l.length, l ++ [some (image_hit_update (new_image_record a) a)]) ∧
      find_image a (l ++ [some (new_image_record a)])
        = some (new_image_record a)
  | [], _ => by
      constructor
      · show scan_update a [some (new_image_record a)] = _
        rw [scan_update, if_pos (new_image_record_equals a)]
        rfl
      · show find_image a [some (new_image_record a)] = _
        rw [find_image, if_pos (new_image_record_equals a)]
  | none :: rest, h => by
      have hrest : scan_update a rest = none := by
        rw [scan_update] at h
        cases hr : scan_update a rest <;> simp [hr] at h ⊢
      obtain ⟨ih1, ih2⟩ := scan_update_insert_append a rest hrest
      constructor
      · show (scan_update a (rest ++ [some (new_image_record a)])).map
            (fun p => (p.1 + 1, none :: p.2)) = _
        rw [ih1]
        rfl
      · show find_image a (rest ++ [some (new_image_record a)]) = _
        exact ih2
  | some img0 :: rest, h => by
      have hm : ¬ image_equals img0 a.filename a.grid_name a.builtin_data
          a.interpolation a.extension a.alpha_type a.colorspace = true := by
        intro hm
        rw [scan_update, if_pos hm] at h
        cases h
      have hrest : scan_update a rest = none := by
        rw [scan_update, if_neg hm] at h
        cases hr : scan_update a rest <;> simp [hr] at h ⊢
      obtain ⟨ih1, ih2⟩ := scan_update_insert_append a rest hrest
      constructor
      · show scan_update a (some img0 :: (rest ++ [some (new_image_record a)])) = _
        rw [scan_update, if_neg hm, ih1]
        rfl
      · show find_image a (some img0 :: (rest ++ [some (new_image_record a)])) = _
        rw [find_image, if_neg hm]
        exact ih2

/-! ### `add_image` characterizations -/

theorem add_image_hit_eq (st : ImageManagerState) (a : AddImageArgs)
    (ty : ImageDataType)
    (hty : ty = effective_image_type st.has_half_images a.metadata.type)
    (s : Nat) (l' : List (Option Image))
    (hscan : scan_update a (st.images ty) = some (s, l')) :
    add_image st a = (type_index_to_flattened_slot s ty, set_images st ty l') := by
  subst hty
  simp only [add_image, hscan]

theorem add_image_reject_eq (st : ImageManagerState) (a : AddImageArgs)
    (ty : ImageDataType)
    (hty : ty = effective_image_type st.has_half_images a.metadata.type)
    (hfresh : scan_update a (st.images ty) = none)
    (hcap : total_tex_count st > st.max_num_images) :
    add_image st a = (-1, st) := by
  subst hty
  simp only [add_image, hfresh]
  rw [if_pos hcap]

theorem add_image_fresh_eq (st : ImageManagerState) (a : AddImageArgs)
    (ty : ImageDataType)
    (hty : ty = effective_image_type st.has_half_images a.metadata.type)
    (hfresh : scan_update a (st.images ty) = none)
    (hcap : ¬ total_tex_count st > st.max_num_images) :
    add_image st a =
      (type_index_to_flattened_slot (find_free_slot (st.images ty)) ty,
       { set_images st ty
           ((if find_free_slot (st.images ty) = (st.images ty).length
             then st.images ty ++ [none]
             else st.images ty).set (find_free_slot (st.images ty))
             (some (new_image_record a))) with
         tex_num_images := fun t =>
           if t = ty then st.tex_num_images t + 1 else st.tex_num_images t
         need_update := true }) := by
  subst hty
  simp only [add_image, hfresh]
  rw [if_neg hcap]

theorem add_image_has_half (st : ImageManagerState) (a : AddImageArgs) :
    ((add_image st a).2).has_half_images = st.has_half_images := by
  cases hscan : scan_update a
      (st.images (effective_image_type st.has_half_images a.metadata.type)) with
  | some p =>
    rw [add_image_hit_eq st a _ rfl p.1 p.2 hscan]
    rfl
  | none =>
    by_cases hcap : total_tex_count st > st.max_num_images
    · rw [add_image_reject_eq st a _ rfl hscan hcap]
    · rw [add_image_fresh_eq st a _ rfl hscan hcap]
      rfl

/-- If a manager's slot tables agree with another's except at one type
where the occupied-slot counts agree, the total record counts agree. -/
theorem total_record_count_eq_of_override (st1 st2 : ImageManagerState)
    (ty : ImageDataType) (l2 : List (Option Image))
    (himg : st2.images = fun t => if t = ty then l2 else st1.images t)
    (hcnt : count_records l2 = count_records (st1.images ty)) :
    total_record_count st2 = total_record_count st1 := by
  have hg : ∀ t, count_records (st2.images t)
      = if t = ty then count_records l2 else count_records (st1.images t) := by
    intro t
    rw [himg]
    by_cases h : t = ty <;> simp [h]
  have hsum := sum_allTypes_override (fun t => count_records (st1.images t))
    (fun t => count_records (st2.images t)) ty (count_records l2) hg
  beta_reduce at hsum
  simp only [total_record_count]
  omega

/-- Accounting for the fresh-insert path of `add_image`: a valid handle is
returned and both the occupied-slot count and the counter sum grow by
one. -/
theorem add_image_fresh_counts (st : ImageManagerState) (a : AddImageArgs)
    (ty : ImageDataType)
    (hty : ty = effective_image_type st.has_half_images a.metadata.type)
    (hfresh : scan_update a (st.images ty) = none)
    (hcap : ¬ total_tex_count st > st.max_num_images) :
    (add_image st a).1 ≠ -1 ∧
    total_record_count (add_image st a).2 = total_record_count st + 1 ∧
    total_tex_count (add_image st a).2 = total_tex_count st + 1 := by
  have heq := add_image_fresh_eq st a ty hty hfresh hcap
  obtain ⟨lst, hlst⟩ : ∃ lst, lst =
      (if find_free_slot (st.images ty) = (st.images ty).length
       then st.images ty ++ [none]
       else st.images ty).set (find_free_slot (st.images ty))
        (some (new_image_record a)) := ⟨_, rfl⟩
  rw [← hlst] at heq
  have h1 : (add_image st a).1
      = type_index_to_flattened_slot (find_free_slot (st.images ty)) ty := by
    rw [heq]
  have himg : ((add_image st a).2).images
      = fun t => if t = ty then lst else st.images t := by
    rw [heq]; rfl
  have htex : ((add_image st a).2).tex_num_images
      = fun t => if t = ty then st.tex_num_images t + 1
                 else st.tex_num_images t := by
    rw [heq]
  refine ⟨by rw [h1]; exact type_index_to_flattened_slot_ne_neg_one _ _, ?_, ?_⟩
  · have hc : count_records lst = count_records (st.images ty) + 1 := by
      rcases find_free_slot_spec (st.images ty) with hfull | ⟨hlt, hempty⟩
      · rw [hlst, if_pos hfull, hfull, set_append_length, count_records_append]
        simp [count_records, List.filter]
      · rw [hlst, if_neg (by omega)]
        exact count_records_set_none_to_some _ _ _ hlt hempty
    have hg : ∀ t,
        count_records (if t = ty then lst else st.images t)
          = if t = ty then count_records lst
            else count_records (st.images t) := by
      intro t
      by_cases h : t = ty <;> simp [h]
    have hsum := sum_allTypes_override (fun t => count_records (st.images t))
      (fun t => count_records (if t = ty then lst else st.images t)) ty
      (count_records lst) hg
    beta_reduce at hsum
    simp only [total_record_count, himg]
    omega
  · have hg : ∀ t,
        (if t = ty then st.tex_num_images t + 1 else st.tex_num_images t)
          = if t = ty then st.tex_num_images ty + 1
            else st.tex_num_images t := by
      intro t
      by_cases h : t = ty <;> simp [h]
    have hsum := sum_allTypes_override st.tex_num_images
      (fun t => if t = ty then st.tex_num_images t + 1 else st.tex_num_images t)
      ty (st.tex_num_images ty + 1) hg
    beta_reduce at hsum
    simp only [total_tex_count, htex]
    omega

/-! ### Claim theorems -/

/-- Claim C4: `add_image` still accepts a fresh identity while the total
record count (the sum of the per-type counters the code checks) equals
`TEX_NUM_MAX` — the new record is allocated and both the record count and
the counter sum grow by one — whereas with the count one above the cap it
returns the invalid handle `-1` and leaves the manager state completely
unchanged (no eviction, no modification). -/
theorem claim_C4 (st1 st2 : ImageManagerState) (a : AddImageArgs)
    (hfresh1 : scan_update a
      (st1.images (effective_image_type st1.has_half_images a.metadata.type)) = none)
    (hfresh2 : scan_update a
      (st2.images (effective_image_type st2.has_half_images a.metadata.type)) = none)
    (hat : total_tex_count st1 = st1.max_num_images)
    (hover : total_tex_count st2 = st2.max_num_images + 1) :
    ((add_image st1 a).1 ≠ -1 ∧
     total_record_count (add_image st1 a).2 = total_record_count st1 + 1 ∧
     total_tex_count (add_image st1 a).2 = total_tex_count st1 + 1) ∧
    ((add_image st2 a).1 = -1 ∧ (add_image st2 a).2 = st2) := by
  constructor
  · exact add_image_fresh_counts st1 a _ rfl hfresh1 (by omega)
  · have hcap : total_tex_count st2 > st2.max_num_images := by omega
    rw [add_image_reject_eq st2 a _ rfl hfresh2 hcap]
    exact ⟨rfl, rfl⟩

/-- Witness for C4 on concrete managers: with one record and
`max_num_images = 1` (exactly at cap) a fresh `"b.png"` is accepted; with
`max_num_images = 0` (one over) it is rejected with `-1` and the state is
untouched. -/
theorem claim_C4_witness :
    total_tex_count c4_state_at_cap = c4_state_at_cap.max_num_images ∧
    total_tex_count c4_state_over_cap = c4_state_over_cap.max_num_images + 1 ∧
    (((add_image c4_state_at_cap c4_args).1 ≠ -1 ∧
      total_record_count (add_image c4_state_at_cap c4_args).2
        = total_record_count c4_state_at_cap + 1 ∧
      total_tex_count (add_image c4_state_at_cap c4_args).2
        = total_tex_count c4_state_at_cap + 1) ∧
     ((add_image c4_state_over_cap c4_args).1 = -1 ∧
      (add_image c4_state_over_cap c4_args).2 = c4_state_over_cap)) :=
  ⟨by decide, by decide,
   claim_C4 c4_state_at_cap c4_state_over_cap c4_args (by decide) (by decide)
     (by decide) (by decide)⟩

/-- Claim C5: adding the same identity twice returns the same flat handle
both times, allocates no second record (the total occupied-slot count is
unchanged by the second call), and leaves the record's `users` counter
two above its value before the two calls (2 if the record did not exist). -/
theorem claim_C5 (st : ImageManagerState) (a : AddImageArgs)
    (h1 : (add_image st a).1 ≠ -1) :
    (add_image (add_image st a).2 a).1 = (add_image st a).1 ∧
    total_record_count (add_image (add_image st a).2 a).2
      = total_record_count (add_image st a).2 ∧
    users_at (add_image (add_image st a).2 a).2 a
      = some ((users_at st a).getD 0 + 2) := by
  have hty2 : effective_image_type ((add_image st a).2).has_half_images
        a.metadata.type
      = effective_image_type st.has_half_images a.metadata.type := by
    rw [add_image_has_half]
  have hhalf2 : effective_image_type
        ((add_image (add_image st a).2 a).2).has_half_images a.metadata.type
      = effective_image_type st.has_half_images a.metadata.type := by
    rw [add_image_has_half, add_image_has_half]
  cases hscan : scan_update a
      (st.images (effective_image_type st.has_half_images a.metadata.type)) with
  | some p =>
    obtain ⟨s, l1⟩ := p
    obtain ⟨img, hf, hget, hlen, hcnt, hf1, hscan1⟩ :=
      scan_update_some_spec a _ s l1 hscan
    have heq1 := add_image_hit_eq st a _ rfl s l1 hscan
    have himg1 : ((add_image st a).2).images
        = fun t => if t = effective_image_type st.has_half_images a.metadata.type
                   then l1 else st.images t := by
      rw [heq1]; rfl
    have hil1 : ((add_image st a).2).images
        (effective_image_type ((add_image st a).2).has_half_images
          a.metadata.type) = l1 := by
      rw [hty2, himg1]; simp
    have hscan2 : scan_update a (((add_image st a).2).images
        (effective_image_type ((add_image st a).2).has_half_images
          a.metadata.type))
        = some (s, l1.set s (some (image_hit_update (image_hit_update img a) a))) := by
      rw [hil1]; exact hscan1
    have heq2 := add_image_hit_eq (add_image st a).2 a _ rfl s _ hscan2
    obtain ⟨img2, hf2, hget2, hlen2, hcnt2, hf2', hscan2'⟩ :=
      scan_update_some_spec a l1 s _ hscan1
    have himg2eq : img2 = image_hit_update img a :=
      Option.some.inj (hf2.symm.trans hf1)
    have hh1 : (add_image st a).1 = type_index_to_flattened_slot s
        (effective_image_type st.has_half_images a.metadata.type) := by rw [heq1]
    have hh2 : (add_image (add_image st a).2 a).1 = type_index_to_flattened_slot s
        (effective_image_type ((add_image st a).2).has_half_images
          a.metadata.type) := by rw [heq2]
    refine ⟨?_, ?_, ?_⟩
    · rw [hh2, hh1, hty2]
    · have hsome : (l1.getD s none).isSome = true := by rw [hget2]; rfl
      have hc2 := count_records_set_some_of_isSome l1 s
        (image_hit_update (image_hit_update img a) a) hsome
      refine total_record_count_eq_of_override (add_image st a).2
        (add_image (add_image st a).2 a).2
        (effective_image_type ((add_image st a).2).has_half_images
          a.metadata.type)
        (l1.set s (some (image_hit_update (image_hit_update img a) a))) ?_ ?_
      · rw [heq2]; rfl
      · rw [hil1]; exact hc2
    · have himg2 : ((add_image (add_image st a).2 a).2).images
          = fun t => if t = effective_image_type
                ((add_image st a).2).has_half_images a.metadata.type
              then l1.set s (some (image_hit_update (image_hit_update img a) a))
              else ((add_image st a).2).images t := by
        rw [heq2]; rfl
      have hfind_final : find_image a
          (((add_image (add_image st a).2 a).2).images
            (effective_image_type
              ((add_image (add_image st a).2 a).2).has_half_images
              a.metadata.type))
          = some (image_hit_update (image_hit_update img a) a) := by
        rw [hhalf2, himg2, hty2]
        simp only [if_pos rfl]
        rw [himg2eq] at hf2'
        exact hf2'
      have husers0 : users_at st a = some img.users := by
        simp only [users_at]
        rw [hf]
        rfl
      rw [husers0]
      simp only [users_at]
      rw [hfind_final]
      simp only [Option.map, Option.getD, image_hit_update_users]
  | none =>
    have hcap : ¬ total_tex_count st > st.max_num_images := by
      intro hc
      exact h1 (by rw [add_image_reject_eq st a _ rfl hscan hc])
    have heq1 := add_image_fresh_eq st a _ rfl hscan hcap
    obtain ⟨lst, hlst⟩ : ∃ lst, lst =
        (if find_free_slot (st.images (effective_image_type st.has_half_images
              a.metadata.type))
            = (st.images (effective_image_type st.has_half_images
                a.metadata.type)).length
         then st.images (effective_image_type st.has_half_images
            a.metadata.type) ++ [none]
         else st.images (effective_image_type st.has_half_images
            a.metadata.type)).set
          (find_free_slot (st.images (effective_image_type st.has_half_images
            a.metadata.type)))
          (some (new_image_record a)) := ⟨_, rfl⟩
    rw [← hlst] at heq1
    have himg1 : ((add_image st a).2).images
        = fun t => if t = effective_image_type st.has_half_images a.metadata.type
                   then lst else st.images t := by
      rw [heq1]; rfl
    have hil1 : ((add_image st a).2).images
        (effective_image_type ((add_image st a).2).has_half_images
          a.metadata.type) = lst := by
      rw [hty2, himg1]; simp
    have hpair : scan_update a lst
        = some (find_free_slot (st.images (effective_image_type
              st.has_half_images a.metadata.type)),
            lst.set (find_free_slot (st.images (effective_image_type
              st.has_half_images a.metadata.type)))
              (some (image_hit_update (new_image_record a) a))) ∧
        find_image a lst = some (new_image_record a) := by
      rcases find_free_slot_spec (st.images (effective_image_type
          st.has_half_images a.metadata.type)) with hfull | ⟨hlt, hempty⟩
      · have hlst2 : lst = st.images (effective_image_type st.has_half_images
            a.metadata.type) ++ [some (new_image_record a)] := by
          rw [hlst, if_pos hfull, hfull, set_append_length]
        obtain ⟨hsc, hfi⟩ := scan_update_insert_append a _ hscan
        constructor
        · rw [hfull, hlst2, set_append_length, hsc]
        · rw [hlst2]; exact hfi
      · have hlst2 : lst = (st.images (effective_image_type st.has_half_images
            a.metadata.type)).set
              (find_free_slot (st.images (effective_image_type
                st.has_half_images a.metadata.type)))
              (some (new_image_record a)) := by
          rw [hlst, if_neg (by omega)]
        obtain ⟨hsc, hfi⟩ := scan_update_insert_set a _ _ hscan hlt
        exact ⟨by rw [hlst2]; exact hsc, by rw [hlst2]; exact hfi⟩
    obtain ⟨hscan_lst, hfind_lst⟩ := hpair
    have hscan2 : scan_update a (((add_image st a).2).images
        (effective_image_type ((add_image st a).2).has_half_images
          a.metadata.type))
        = some (find_free_slot (st.images (effective_image_type
              st.has_half_images a.metadata.type)),
            lst.set (find_free_slot (st.images (effective_image_type
              st.has_half_images a.metadata.type)))
              (some (image_hit_update (new_image_record a) a))) := by
      rw [hil1]; exact hscan_lst
    have heq2 := add_image_hit_eq (add_image st a).2 a _ rfl _ _ hscan2
    obtain ⟨img2, hf2, hget2, hlen2, hcnt2, hf2', hscan2'⟩ :=
      scan_update_some_spec a lst _ _ hscan_lst
    have himg2eq : img2 = new_image_record a :=
      Option.some.inj (hf2.symm.trans hfind_lst)
    have hh1 : (add_image st a).1 = type_index_to_flattened_slot
        (find_free_slot (st.images (effective_image_type st.has_half_images
          a.metadata.type)))
        (effective_image_type st.has_half_images a.metadata.type) := by rw [heq1]
    have hh2 : (add_image (add_image st a).2 a).1 = type_index_to_flattened_slot
        (find_free_slot (st.images (effective_image_type st.has_half_images
          a.metadata.type)))
        (effective_image_type ((add_image st a).2).has_half_images
          a.metadata.type) := by rw [heq2]
    refine ⟨?_, ?_, ?_⟩
    · rw [hh2, hh1, hty2]
    · have hsome : (lst.getD (find_free_slot (st.images (effective_image_type
            st.has_half_images a.metadata.type))) none).isSome = true := by
        rw [hget2]; rfl
      have hc2 := count_records_set_some_of_isSome lst _
        (image_hit_update (new_image_record a) a) hsome
      refine total_record_count_eq_of_override (add_image st a).2
        (add_image (add_image st a).2 a).2
        (effective_image_type ((add_image st a).2).has_half_images
          a.metadata.type)
        (lst.set (find_free_slot (st.images (effective_image_type
            st.has_half_images a.metadata.type)))
          (some (image_hit_update (new_image_record a) a))) ?_ ?_
      · rw [heq2]; rfl
      · rw [hil1]; exact hc2
    · have himg2 : ((add_image (add_image st a).2 a).2).images
          = fun t => if t = effective_image_type
                ((add_image st a).2).has_half_images a.metadata.type
              then lst.set (find_free_slot (st.images (effective_image_type
                  st.has_half_images a.metadata.type)))
                (some (image_hit_update (new_image_record a) a))
              else ((add_image st a).2).images t := by
        rw [heq2]; rfl
      have hfind_final : find_image a
          (((add_image (add_image st a).2 a).2).images
            (effective_image_type
              ((add_image (add_image st a).2 a).2).has_half_images
              a.metadata.type))
          = some (image_hit_update (new_image_record a) a) := by
        rw [hhalf2, himg2, hty2]
        simp only [if_pos rfl]
        rw [himg2eq] at hf2'
        exact hf2'
      have husers0 : users_at st a = none := by
        simp only [users_at]
        rw [find_image_eq_none_of_scan_update_eq_none a _ hscan]
        rfl
      rw [husers0]
      simp only [users_at]
      rw [hfind_final]
      simp only [Option.map, Option.getD, image_hit_update_users,
        new_image_record]

/-- Witness for C5 on a concrete manager: adding the fresh identity
`"b.png"` twice to `c4_state_at_cap` yields the same handle twice, no
extra record after the second call, and a `users` count of 2. -/
theorem claim_C5_witness :
    (add_image c4_state_at_cap c4_args).1 ≠ -1 ∧
    ((add_image (add_image c4_state_at_cap c4_args).2 c4_args).1
        = (add_image c4_state_at_cap c4_args).1 ∧
     total_record_count (add_image (add_image c4_state_at_cap c4_args).2 c4_args).2
        = total_record_count (add_image c4_state_at_cap c4_args).2 ∧
     users_at (add_image (add_image c4_state_at_cap c4_args).2 c4_args).2 c4_args
        = some ((users_at c4_state_at_cap c4_args).getD 0 + 2)) :=
  ⟨by decide, claim_C5 c4_state_at_cap c4_args (by decide)⟩

/-- Claim C1 (code bug): the spec says that for float inputs into a
4-channel pixel kind, every output pixel with any non-finite channel is
zeroed in all four channels.  The source's guard loop steps its counter by
4 (`i += 4`) while also scaling it by 4 when addressing (`&pixels[i * 4]`),
so only pixels whose index is a multiple of 4 are checked.  Concretely: in
a 2-pixel RGBA float buffer whose second pixel is `(NaN, 2, 3, 4)`, the
guard returns the buffer unchanged — the non-finite pixel is not zeroed. -/
theorem claim_C1_failing :
    (c1_buf.getD 4 FloatVal.nonfinite).isfinite = false ∧
    finite_guard_rgba 2 c1_buf = c1_buf ∧
    finite_guard_rgba 2 c1_buf ≠
      [.fin 1, .fin 1, .fin 1, .fin 1, .fin 0, .fin 0, .fin 0, .fin 0] :=
  ⟨rfl, rfl, by decide⟩

/-- Claim C2 (code bug): the spec says a loader failure installs a magenta
placeholder and marks the record loaded, so `(users > 0, need_load = false,
mem = none)` is unreachable.  In the source, `file_load_image` returns
`false` on decode/allocation failure *without* calling `file_load_failed`,
and `device_load_image` discards that boolean and unconditionally clears
`need_load` — reaching exactly the forbidden state.  Evaluated here on a
live record whose file fails to open. -/
theorem claim_C2_failing :
    (((device_load_image false c2_env 0 c2_state ImageDataType.FLOAT4 0).images
        ImageDataType.FLOAT4).getD 0 none).map
      (fun i => (i.users, i.need_load, i.mem)) = some (1, false, none) := rfl

/-- Claim C3 (code bug): the spec says an `Average` pass adds with weight
`layer.samples / total_samples[merge_offset]` (the *output* channel's
accumulated total), making the merged value the sample-weighted mean.  The
source reads `channel_total_samples[pass.offset]` — the *input* channel
index — although the totals vector is indexed by output channel.  With two
files holding the same two channels in opposite orders (samples 10 and 30,
values 0.4/0.8 and 0.9/0.6), the code produces `[1/3, 27/20]` instead of
the sample-weighted means `[3/5, 3/4]` (the second channel even exceeds
every input value).  Both passes are classified `AVERAGE`. -/
theorem claim_C3_failing :
    parse_channel_operation "P" = MergeChannelOp.AVERAGE ∧
    (merge_channels_metadata [c3_file1, c3_file2]).2.2 = [20, 60] ∧
    merge_pixels (merge_channels_metadata [c3_file1, c3_file2]).1
        (merge_channels_metadata [c3_file1, c3_file2]).2.1
        (merge_channels_metadata [c3_file1, c3_file2]).2.2 = [1/3, 27/20] ∧
    (10 * (2/5 : ℚ) + 10 * (4/5)) / (10 + 10) = 3/5 ∧
    (30 * (9/10 : ℚ) + 30 * (3/5)) / (30 + 30) = 3/4 ∧
    ((1/3 : ℚ) ≠ 3/5 ∧ (27/20 : ℚ) ≠ 3/4) := by
  refine ⟨rfl, rfl, ?_, by norm_num, by norm_num, by norm_num⟩
  have hP : parse_channel_operation "P" = MergeChannelOp.AVERAGE := by decide
  have hQ : parse_channel_operation "Q" = MergeChannelOp.AVERAGE := by decide
  have hs1 : ("LayA.P.R" : String) ≠ "LayB.Q.R" := by decide
  have hs2 : ("LayB.Q.R" : String) ≠ "LayA.P.R" := by decide
  have hops : MergeChannelOp.AVERAGE ≠ MergeChannelOp.COPY := by decide
  simp only [merge_pixels, merge_channels_metadata, merge_images_channels,
    merge_layers_channels, merge_passes_channels, merge_one_pass,
    find_channel_index, merge_pass_pixels, stride_loop_indices,
    c3_file1, c3_file2, hP, hQ, List.foldl, List.getD, List.headD,
    List.replicate, List.range, List.range.loop, List.map, List.set,
    Option.map, Option.getD, List.get?, List.length, beq_iff_eq,
    beq_self_eq_true, hs1, hs2, hops, if_true, if_false, ite_true, ite_false,
    List.cons.injEq]
  norm_num

/-- Claim C9: when the detected colorspace is neither raw nor sRGB,
`metadata_detect_colorspace` sets `compress_as_srgb` exactly for the 8-bit
types (`BYTE`, `BYTE4`) and promotes the 16-bit integer types to half
(`USHORT → HALF`, `USHORT4 → HALF4`), leaving every other type
unchanged. -/
theorem claim_C9 (detected : String) (md : ImageMetaData)
    (hraw : detected ≠ u_colorspace_raw) (hsrgb : detected ≠ u_colorspace_srgb) :
    (metadata_detect_colorspace detected md).compress_as_srgb
        = (md.type == ImageDataType.BYTE || md.type == ImageDataType.BYTE4) ∧
    (metadata_detect_colorspace detected md).type
        = (match md.type with
           | ImageDataType.USHORT => ImageDataType.HALF
           | ImageDataType.USHORT4 => ImageDataType.HALF4
           | t => t) := by
  cases htype : md.type <;>
    simp [metadata_detect_colorspace, hraw, hsrgb, htype]

/-- Witness for C9 at a concrete input: an `USHORT4` image in the
(non-raw, non-sRGB) colorspace `"lin_rec709"` is promoted to `HALF4` with
`compress_as_srgb = false`. -/
theorem claim_C9_witness :
    ("lin_rec709" ≠ u_colorspace_raw) ∧ ("lin_rec709" ≠ u_colorspace_srgb) ∧
    ((metadata_detect_colorspace "lin_rec709"
        { type := ImageDataType.USHORT4 }).compress_as_srgb = false ∧
     (metadata_detect_colorspace "lin_rec709"
        { type := ImageDataType.USHORT4 }).type = ImageDataType.HALF4) :=
  ⟨by decide, by decide,
   claim_C9 "lin_rec709" { type := ImageDataType.USHORT4 } (by decide) (by decide)⟩

/-- Claim C10: `get_image_metadata(flat_slot)` returns `false` (here:
`none`, the out-parameter left unwritten) for the invalid handle `-1` and
for any handle whose decoded slot holds no record, and returns the
record's metadata when the slot is occupied. -/
theorem claim_C10 (st : ImageManagerState) (flat_slot : Int) :
    (flat_slot = -1 → get_image_metadata st flat_slot = none) ∧
    (flat_slot ≠ -1 →
      ((st.images (flattened_slot_to_type_index flat_slot).1).getD
          (flattened_slot_to_type_index flat_slot).2 none = none →
        get_image_metadata st flat_slot = none) ∧
      ∀ img,
        (st.images (flattened_slot_to_type_index flat_slot).1).getD
            (flattened_slot_to_type_index flat_slot).2 none = some img →
        get_image_metadata st flat_slot = some img.metadata) := by
  refine ⟨fun h => by simp [get_image_metadata, h],
    fun h => ⟨fun hempty => ?_, fun img himg => ?_⟩⟩
  · simp only [get_image_metadata, if_neg h]
    rw [hempty]
  · simp only [get_image_metadata, if_neg h]
    rw [himg]

/-- Witness for C10 on `c10_state`: handle `-1` and the empty slot 1 of
`FLOAT4` (flat handle `8`) yield `none`; the occupied slot 0 (flat handle
`0`) yields its metadata. -/
theorem claim_C10_witness :
    get_image_metadata c10_state (-1) = none ∧
    get_image_metadata c10_state 8 = none ∧
    get_image_metadata c10_state 0 = some c10_img.metadata :=
  ⟨(claim_C10 c10_state (-1)).1 rfl,
   ((claim_C10 c10_state 8).2 (by decide)).1 rfl,
   ((claim_C10 c10_state 0).2 (by decide)).2 c10_img rfl⟩

/-- Claim C8: for 1-, 2-, 3- or 4-channel inputs loaded into a 4-channel
pixel kind, every output alpha of the channel-expansion stage is either
the input alpha or the storage unit value; alpha is *set to* the unit
value exactly when the input carries no alpha channel (1- or 3-channel,
or 4-channel CMYK) or the alpha mode is Ignore, and is passed through from
the input otherwise.  (`input alpha` is sample `2p+1` for 2-channel input
and sample `4p+3` for 4-channel input.) -/
theorem claim_C8 {S : Type} (ops : StorageOps S) (dflt : S) (cmyk : Bool)
    (components : Nat) (alpha_type : ImageAlphaType) (np : Nat) (buf : List S)
    (p : Nat) (hlen : buf.length = 4 * np) (hc1 : 1 ≤ components)
    (hc4 : components ≤ 4) (hcmyk : cmyk = true → components = 4)
    (hp : p < np) :
    ((rgba_channel_stage ops dflt cmyk components alpha_type np buf).getD
          (4 * p + 3) dflt
        = (if components = 2 then buf.getD (2 * p + 1) dflt
           else buf.getD (4 * p + 3) dflt) ∨
     (rgba_channel_stage ops dflt cmyk components alpha_type np buf).getD
          (4 * p + 3) dflt = ops.one) ∧
    ((alpha_type = ImageAlphaType.IGNORE ∨
        ¬(components = 2 ∨ (components = 4 ∧ cmyk = false))) →
      (rgba_channel_stage ops dflt cmyk components alpha_type np buf).getD
          (4 * p + 3) dflt = ops.one) ∧
    (alpha_type ≠ ImageAlphaType.IGNORE →
      (components = 2 ∨ (components = 4 ∧ cmyk = false)) →
      (rgba_channel_stage ops dflt cmyk components alpha_type np buf).getD
          (4 * p + 3) dflt
        = (if components = 2 then buf.getD (2 * p + 1) dflt
           else buf.getD (4 * p + 3) dflt)) := by
  rw [rgba_channel_stage_alpha ops dflt cmyk components alpha_type np buf p hlen hp]
  by_cases hig : alpha_type = ImageAlphaType.IGNORE
  · simp [hig]
  · cases hcm : cmyk
    · simp only [hig, if_false, Bool.false_eq_true, if_neg, ite_false]
      interval_cases components <;> simp [hig]
    · have hc := hcmyk hcm
      subst hc
      simp [hig, hcm]

/-- Witness for C8 at a concrete input: a 1-pixel grayscale+alpha float
buffer `(L, α) = (5, 7)` with alpha mode Auto keeps the input alpha 7. -/
theorem claim_C8_witness :
    ([(5 : ℚ), 7, 0, 0].length = 4 * 1) ∧ (1 ≤ 2) ∧ (2 ≤ 4) ∧ (0 < 1) ∧
    (rgba_channel_stage opsQ 0 false 2 ImageAlphaType.AUTO 1
        [(5 : ℚ), 7, 0, 0]).getD 3 0 = 7 := by
  refine ⟨rfl, by decide, by decide, by decide, ?_⟩
  have h := (claim_C8 opsQ 0 false 2 ImageAlphaType.AUTO 1 [(5 : ℚ), 7, 0, 0] 0 rfl
    (by decide) (by decide) (by decide) (by decide)).2.2 (by decide) (Or.inl rfl)
  simpa using h

/-- Claim C6: `save_output` writes to the temporary path
`<output>.merge-tmp-<uniq><ext>` (which differs from the output path),
renames over the output only after a successful write and close, removes
the temporary on every failure path, never replaces the pre-existing
output with partial data, and leaves no temp file behind. -/
theorem claim_C6 (env : SaveEnv) (filepath : String) (pixels : List ℚ)
    (fs : MergeFS) (htmp : fs.tmp_file = none) :
    merge_tmp_filepath filepath env.uniq
        = filepath ++ ".merge-tmp-" ++ env.uniq ++ file_extension filepath ∧
    merge_tmp_filepath filepath env.uniq ≠ filepath ∧
    (save_output env filepath pixels fs).2.tmp_file = none ∧
    ((save_output env filepath pixels fs).1 = true →
      env.write_ok = true ∧ env.close_ok = true ∧
      (save_output env filepath pixels fs).2.out_file
        = some (MergeFileData.complete pixels)) ∧
    ((save_output env filepath pixels fs).1 = false →
      (save_output env filepath pixels fs).2.out_file = fs.out_file) := by
  refine ⟨?_, ?_, ?_⟩
  · simp [merge_tmp_filepath, String.append_assoc]
  · intro h
    have hl := congrArg String.length h
    simp only [merge_tmp_filepath, String.length_append] at hl
    have : (".merge-tmp-" : String).length = 11 := rfl
    omega
  · obtain ⟨u, c, o, w, cl, r⟩ := env
    cases c <;> cases o <;> cases w <;> cases cl <;> cases r <;>
      simp_all [save_output]

/-- Witness for C6 at a concrete input: a failed close on output path
`"out.exr"` removes the temp and leaves the previous output intact. -/
theorem claim_C6_witness :
    c6_fs.tmp_file = none ∧
    (merge_tmp_filepath "out.exr" c6_env.uniq
        = "out.exr" ++ ".merge-tmp-" ++ c6_env.uniq ++ file_extension "out.exr" ∧
     merge_tmp_filepath "out.exr" c6_env.uniq ≠ "out.exr" ∧
     (save_output c6_env "out.exr" [1/2] c6_fs).2.tmp_file = none ∧
     ((save_output c6_env "out.exr" [1/2] c6_fs).1 = true →
       c6_env.write_ok = true ∧ c6_env.close_ok = true ∧
       (save_output c6_env "out.exr" [1/2] c6_fs).2.out_file
         = some (MergeFileData.complete [1/2])) ∧
     ((save_output c6_env "out.exr" [1/2] c6_fs).1 = false →
       (save_output c6_env "out.exr" [1/2] c6_fs).2.out_file = c6_fs.out_file)) :=
  ⟨rfl, claim_C6 c6_env "out.exr" [1/2] c6_fs rfl⟩

/-! ### Cancellation and reload across `device_update` (claim C7) -/

theorem set_images_self (st : ImageManagerState) (t : ImageDataType)
    (l : List (Option Image)) : (set_images st t l).images t = l := by
  simp [set_images]

theorem set_images_other (st : ImageManagerState) (t : ImageDataType)
    (l : List (Option Image)) (t2 : ImageDataType) (h : t2 ≠ t) :
    (set_images st t l).images t2 = st.images t2 := by
  simp [set_images, h]

theorem device_load_image_cancel (env : LoadEnv) (tl : Nat)
    (st : ImageManagerState) (t : ImageDataType) (s : Nat) :
    device_load_image true env tl st t s = st := rfl

theorem device_load_image_some (env : LoadEnv) (tl : Nat)
    (st : ImageManagerState) (t : ImageDataType) (s : Nat) (img : Image)
    (hg : (st.images t).getD s none = some img) :
    device_load_image false env tl st t s
      = set_images st t ((st.images t).set s
          (some (load_result st.oiio_texture_system env tl t s img))) := by
  simp only [device_load_image, hg]
  rfl

theorem device_free_image_some (st : ImageManagerState) (t : ImageDataType)
    (j : Nat) (img : Image) (hg : (st.images t).getD j none = some img) :
    device_free_image st t j
      = { set_images st t ((st.images t).set j none) with
          tex_num_images := fun t2 =>
            if t2 = t then st.tex_num_images t2 - 1 else st.tex_num_images t2 } := by
  simp only [device_free_image, hg]

theorem device_update_step_some (c : Bool)
    (envs : ImageDataType → Nat → LoadEnv) (tl : Nat)
    (st : ImageManagerState) (t : ImageDataType) (j : Nat) (img : Image)
    (hg : (st.images t).getD j none = some img) :
    device_update_step c envs tl st t j
      = if img.users = 0 then device_free_image st t j
        else if img.need_load then device_load_image c (envs t j) tl st t j
        else st := by
  simp only [device_update_step, hg]

theorem device_update_step_none (c : Bool)
    (envs : ImageDataType → Nat → LoadEnv) (tl : Nat)
    (st : ImageManagerState) (t : ImageDataType) (j : Nat)
    (hg : (st.images t).getD j none = none) :
    device_update_step c envs tl st t j = st := by
  simp only [device_update_step, hg]

theorem device_update_step_oiio (c : Bool)
    (envs : ImageDataType → Nat → LoadEnv) (tl : Nat)
    (st : ImageManagerState) (t : ImageDataType) (j : Nat) :
    (device_update_step c envs tl st t j).oiio_texture_system
      = st.oiio_texture_system := by
  cases hg : (st.images t).getD j none with
  | none => rw [device_update_step_none c envs tl st t j hg]
  | some img =>
    rw [device_update_step_some c envs tl st t j img hg]
    by_cases h0 : img.users = 0
    · rw [if_pos h0, device_free_image_some st t j img hg]
      rfl
    · rw [if_neg h0]
      by_cases h1 : img.need_load = true
      · rw [if_pos h1]
        cases c
        · rw [device_load_image_some (envs t j) tl st t j img hg]
          rfl
        · rw [device_load_image_cancel]
      · rw [if_neg h1]

theorem device_update_step_images_other (c : Bool)
    (envs : ImageDataType → Nat → LoadEnv) (tl : Nat)
    (st : ImageManagerState) (t : ImageDataType) (j : Nat)
    (t2 : ImageDataType) (h : t2 ≠ t) :
    (device_update_step c envs tl st t j).images t2 = st.images t2 := by
  cases hg : (st.images t).getD j none with
  | none => rw [device_update_step_none c envs tl st t j hg]
  | some img =>
    rw [device_update_step_some c envs tl st t j img hg]
    by_cases h0 : img.users = 0
    · rw [if_pos h0, device_free_image_some st t j img hg]
      show (set_images st t ((st.images t).set j none)).images t2 = st.images t2
      exact set_images_other st t _ t2 h
    · rw [if_neg h0]
      by_cases h1 : img.need_load = true
      · rw [if_pos h1]
        cases c
        · rw [device_load_image_some (envs t j) tl st t j img hg]
          exact set_images_other st t _ t2 h
        · rw [device_load_image_cancel]
      · rw [if_neg h1]

theorem device_update_step_getD_other (c : Bool)
    (envs : ImageDataType → Nat → LoadEnv) (tl : Nat)
    (st : ImageManagerState) (t : ImageDataType) (j : Nat) (s : Nat)
    (h : j ≠ s) :
    ((device_update_step c envs tl st t j).images t).getD s none
      = (st.images t).getD s none := by
  cases hg : (st.images t).getD j none with
  | none => rw [device_update_step_none c envs tl st t j hg]
  | some img =>
    rw [device_update_step_some c envs tl st t j img hg]
    by_cases h0 : img.users = 0
    · rw [if_pos h0, device_free_image_some st t j img hg]
      show ((set_images st t ((st.images t).set j none)).images t).getD s none
        = (st.images t).getD s none
      rw [set_images_self]
      exact getD_set_ne _ _ _ _ _ h
    · rw [if_neg h0]
      by_cases h1 : img.need_load = true
      · rw [if_pos h1]
        cases c
        · rw [device_load_image_some (envs t j) tl st t j img hg,
            set_images_self]
          exact getD_set_ne _ _ _ _ _ h
        · rw [device_load_image_cancel]
      · rw [if_neg h1]

theorem slots_fold_getD_of_le (c : Bool)
    (envs : ImageDataType → Nat → LoadEnv) (tl : Nat)
    (st : ImageManagerState) (t : ImageDataType) (s : Nat) :
    ∀ n, n ≤ s →
    (((List.range n).foldl
        (fun st2 j => device_update_step c envs tl st2 t j) st).images t).getD
        s none
      = (st.images t).getD s none := by
  intro n
  induction n with
  | zero => intro _; rfl
  | succ k ih =>
    intro hk
    rw [foldl_range_succ]
    rw [device_update_step_getD_other c envs tl _ t k s (by omega)]
    exact ih (by omega)

theorem slots_fold_oiio (c : Bool) (envs : ImageDataType → Nat → LoadEnv)
    (tl : Nat) (st : ImageManagerState) (t : ImageDataType) :
    ∀ n, ((List.range n).foldl
        (fun st2 j => device_update_step c envs tl st2 t j) st).oiio_texture_system
      = st.oiio_texture_system := by
  intro n
  induction n with
  | zero => rfl
  | succ k ih =>
    rw [foldl_range_succ, device_update_step_oiio]
    exact ih

theorem slots_fold_images_other (c : Bool)
    (envs : ImageDataType → Nat → LoadEnv) (tl : Nat)
    (st : ImageManagerState) (t : ImageDataType) (t2 : ImageDataType)
    (h : t2 ≠ t) :
    ∀ n, ((List.range n).foldl
        (fun st2 j => device_update_step c envs tl st2 t j) st).images t2
      = st.images t2 := by
  intro n
  induction n with
  | zero => rfl
  | succ k ih =>
    rw [foldl_range_succ, device_update_step_images_other c envs tl _ t k t2 h]
    exact ih

theorem device_update_step_load (envs : ImageDataType → Nat → LoadEnv)
    (tl : Nat) (st : ImageManagerState) (t : ImageDataType) (s : Nat)
    (img : Image) (hg : (st.images t).getD s none = some img)
    (hu : img.users ≠ 0) (hn : img.need_load = true) :
    ((device_update_step false envs tl st t s).images t).getD s none
      = some (load_result st.oiio_texture_system (envs t s) tl t s img) := by
  have hlt : s < (st.images t).length :=
    lt_length_of_getD_ne_default _ _ _
      (by rw [hg]; exact fun hc => Option.noConfusion hc)
  simp only [device_update_step, hg]
  rw [if_neg hu, if_pos hn]
  rw [device_load_image_some (envs t s) tl st t s img hg, set_images_self]
  exact getD_set_self _ _ _ _ hlt

theorem slots_fold_load (envs : ImageDataType → Nat → LoadEnv) (tl : Nat)
    (st : ImageManagerState) (t : ImageDataType) (s : Nat) (img : Image)
    (n : Nat) (hs : s < n) (hg : (st.images t).getD s none = some img)
    (hu : img.users ≠ 0) (hn : img.need_load = true) :
    (((List.range n).foldl
        (fun st2 j => device_update_step false envs tl st2 t j) st).images
        t).getD s none
      = some (load_result st.oiio_texture_system (envs t s) tl t s img) := by
  induction n with
  | zero => omega
  | succ k ih =>
    rw [foldl_range_succ]
    by_cases hk : s < k
    · rw [device_update_step_getD_other false envs tl _ t k s (by omega)]
      exact ih hk
    · have hsk : s = k := by omega
      subst hsk
      have hg2 : (((List.range s).foldl
          (fun st2 j => device_update_step false envs tl st2 t j) st).images
          t).getD s none = some img :=
        (slots_fold_getD_of_le false envs tl st t s s le_rfl).trans hg
      rw [device_update_step_load envs tl _ t s img hg2 hu hn]
      rw [slots_fold_oiio]

theorem device_update_slots_images_other (c : Bool)
    (envs : ImageDataType → Nat → LoadEnv) (tl : Nat)
    (st : ImageManagerState) (t : ImageDataType) (t2 : ImageDataType)
    (h : t2 ≠ t) :
    (device_update_slots c envs tl st t).images t2 = st.images t2 := by
  simp only [device_update_slots]
  exact slots_fold_images_other c envs tl st t t2 h _

theorem device_update_slots_oiio (c : Bool)
    (envs : ImageDataType → Nat → LoadEnv) (tl : Nat)
    (st : ImageManagerState) (t : ImageDataType) :
    (device_update_slots c envs tl st t).oiio_texture_system
      = st.oiio_texture_system := by
  simp only [device_update_slots]
  exact slots_fold_oiio c envs tl st t _

theorem types_fold_images_not_mem (c : Bool)
    (envs : ImageDataType → Nat → LoadEnv) (tl : Nat) :
    ∀ (ts : List ImageDataType) (st : ImageManagerState) (t2 : ImageDataType),
    t2 ∉ ts →
    (ts.foldl (device_update_slots c envs tl) st).images t2 = st.images t2 := by
  intro ts
  induction ts with
  | nil => intro st t2 _; rfl
  | cons t ts ih =>
    intro st t2 hmem
    have h2 : t2 ≠ t ∧ t2 ∉ ts := by simpa using hmem
    rw [List.foldl_cons, ih _ _ h2.2]
    exact device_update_slots_images_other c envs tl st t t2 h2.1

theorem types_fold_load (envs : ImageDataType → Nat → LoadEnv) (tl : Nat) :
    ∀ (ts : List ImageDataType), ts.Nodup →
    ∀ (st : ImageManagerState) (t : ImageDataType), t ∈ ts →
    ∀ (s : Nat) (img : Image),
    (st.images t).getD s none = some img → img.users ≠ 0 →
    img.need_load = true → st.oiio_texture_system = false →
    ((ts.foldl (device_update_slots false envs tl) st).images t).getD s none
      = some (load_result false (envs t s) tl t s img) := by
  intro ts
  induction ts with
  | nil => intro _ st t hmem; exact absurd hmem (List.not_mem_nil t)
  | cons t0 ts ih =>
    intro hnd st t hmem s img hg hu hn ho
    rw [List.foldl_cons]
    by_cases ht : t = t0
    · subst ht
      have hlt : s < (st.images t).length :=
        lt_length_of_getD_ne_default _ _ _
          (by rw [hg]; exact fun hc => Option.noConfusion hc)
      have hstep : ((device_update_slots false envs tl st t).images t).getD
          s none = some (load_result false (envs t s) tl t s img) := by
        simp only [device_update_slots]
        rw [slots_fold_load envs tl st t s img _ hlt hg hu hn, ho]
      rw [types_fold_images_not_mem false envs tl ts _ t
        (List.nodup_cons.mp hnd).1]
      exact hstep
    · have hg2 : ((device_update_slots false envs tl st t0).images t).getD
          s none = some img := by
        rw [device_update_slots_images_other false envs tl st t0 t ht]
        exact hg
      have ho2 : (device_update_slots false envs tl st t0).oiio_texture_system
          = false := by
        rw [device_update_slots_oiio]
        exact ho
      have hmem2 : t ∈ ts := by
        cases List.mem_cons.mp hmem with
        | inl h => exact absurd h ht
        | inr h => exact h
      exact ih (List.nodup_cons.mp hnd).2 _ t hmem2 s img hg2 hu hn ho2

theorem device_update_noop (c : Bool) (envs : ImageDataType → Nat → LoadEnv)
    (tl : Nat) (st : ImageManagerState) (h : st.need_update = false) :
    device_update c envs tl st = st := by
  simp [device_update, h]

theorem device_update_need_update_false (c : Bool)
    (envs : ImageDataType → Nat → LoadEnv) (tl : Nat)
    (st : ImageManagerState) :
    (device_update c envs tl st).need_update = false := by
  by_cases h : st.need_update = true
  · simp only [device_update]
    rw [if_neg (by simp [h])]
  · have hf : st.need_update = false := by
      revert h; cases st.need_update <;> simp
    rw [device_update_noop c envs tl st hf]
    exact hf

theorem device_update_images_of_need (envs : ImageDataType → Nat → LoadEnv)
    (tl : Nat) (st : ImageManagerState) (h : st.need_update = true) :
    (device_update false envs tl st).images
      = (allImageDataTypes.foldl (device_update_slots false envs tl) st).images := by
  simp only [device_update]
  rw [if_neg (by simp [h])]

theorem mem_allImageDataTypes (t : ImageDataType) : t ∈ allImageDataTypes := by
  cases t <;> decide

theorem load_result_need_load (oiio : Bool) (env : LoadEnv) (tl : Nat)
    (t : ImageDataType) (s : Nat) (img : Image) :
    (load_result oiio env tl t s img).need_load = false := by
  by_cases h : (oiio && (img.builtin_data == 0)) = true
  · simp only [load_result]
    rw [if_pos h]
  · simp only [load_result]
    rw [if_neg h]

theorem file_load_image_mem (env : LoadEnv) (img : Image) (t : ImageDataType)
    (tl : Nat) (hgen : env.generic_ok = true)
    (hsz : max (max img.metadata.width img.metadata.height) img.metadata.depth
      ≠ 0)
    (ha : env.alloc_ok = true)
    (hv : (img.is_volume && env.sparse_found) = false) :
    ((file_load_image env img t tl).1).mem.isSome = true := by
  simp [file_load_image, hgen, ha, hv, hsz]

theorem load_result_mem (env : LoadEnv) (tl : Nat) (t : ImageDataType)
    (s : Nat) (img : Image) (hok : load_succeeds env img = true) :
    (load_result false env tl t s img).mem.isSome = true := by
  have h4 := hok
  simp only [load_succeeds, Bool.and_eq_true] at h4
  obtain ⟨⟨⟨hgen, hsz0⟩, ha⟩, hv0⟩ := h4
  have hsz : max (max img.metadata.width img.metadata.height)
      img.metadata.depth ≠ 0 := by simpa using hsz0
  have hv : (img.is_volume && env.sparse_found) = false := by
    cases hb : (img.is_volume && env.sparse_found)
    · rfl
    · rw [hb] at hv0
      exact absurd hv0 (by decide)
  simp only [load_result]
  rw [if_neg (by simp)]
  exact file_load_image_mem env _ t tl hgen hsz ha hv

/-- Claim C7 (corrected): if `Progress` reports cancellation when a loader
starts, `device_load_image` indeed returns with the record untouched and
`need_load` still `true` (first conjunct).  But the record is not retried
by the next `device_update`: the cancelled `device_update` still clears
`need_update` (second conjunct), so the immediately following
`device_update` is a no-op (third conjunct).  The record is only loaded by
a `device_update` that runs while `need_update` is set and without
cancellation: such a run replaces the record's slot with the
`load_result` record (fourth conjunct), whose `need_load` is `false` and,
when the loader's collaborators succeed, whose device buffer is installed
(last two conjuncts). -/
theorem claim_C7_amended (envs : ImageDataType → Nat → LoadEnv) (tl : Nat)
    (st : ImageManagerState) (t : ImageDataType) (s : Nat) (img : Image)
    (hupd : st.need_update = true)
    (ho : st.oiio_texture_system = false)
    (hg : (st.images t).getD s none = some img)
    (hu : img.users ≠ 0)
    (hn : img.need_load = true)
    (hok : load_succeeds (envs t s) img = true) :
    device_load_image true (envs t s) tl st t s = st ∧
    (device_update true envs tl st).need_update = false ∧
    device_update false envs tl (device_update true envs tl st)
      = device_update true envs tl st ∧
    ((device_update false envs tl st).images t).getD s none
      = some (load_result false (envs t s) tl t s img) ∧
    (load_result false (envs t s) tl t s img).need_load = false ∧
    (load_result false (envs t s) tl t s img).mem.isSome = true := by
  refine ⟨device_load_image_cancel (envs t s) tl st t s,
    device_update_need_update_false true envs tl st, ?_, ?_,
    load_result_need_load false (envs t s) tl t s img,
    load_result_mem (envs t s) tl t s img hok⟩
  · exact device_update_noop false envs tl _
      (device_update_need_update_false true envs tl st)
  · rw [device_update_images_of_need envs tl st hupd]
    exact types_fold_load envs tl allImageDataTypes (by decide) st t
      (mem_allImageDataTypes t) s img hg hu hn ho

/-- Witness for the amended C7 on a concrete manager: one live dirty
FLOAT4 record whose loader would succeed. -/
theorem claim_C7_amended_witness :
    (c7_state.need_update = true ∧ c7_state.oiio_texture_system = false ∧
     (c7_state.images ImageDataType.FLOAT4).getD 0 none = some c7_img ∧
     c7_img.users ≠ 0 ∧ c7_img.need_load = true ∧
     load_succeeds (c7_envs ImageDataType.FLOAT4 0) c7_img = true) ∧
    (device_load_image true (c7_envs ImageDataType.FLOAT4 0) 0 c7_state
        ImageDataType.FLOAT4 0 = c7_state ∧
     (device_update true c7_envs 0 c7_state).need_update = false ∧
     device_update false c7_envs 0 (device_update true c7_envs 0 c7_state)
        = device_update true c7_envs 0 c7_state ∧
     ((device_update false c7_envs 0 c7_state).images
          ImageDataType.FLOAT4).getD 0 none
        = some (load_result false (c7_envs ImageDataType.FLOAT4 0) 0
            ImageDataType.FLOAT4 0 c7_img) ∧
     (load_result false (c7_envs ImageDataType.FLOAT4 0) 0
        ImageDataType.FLOAT4 0 c7_img).need_load = false ∧
     (load_result false (c7_envs ImageDataType.FLOAT4 0) 0
        ImageDataType.FLOAT4 0 c7_img).mem.isSome = true) :=
  ⟨⟨rfl, rfl, rfl, by decide, rfl, by decide⟩,
   claim_C7_amended c7_envs 0 c7_state ImageDataType.FLOAT4 0 c7_img rfl rfl
     rfl (by decide) rfl (by decide)⟩

/-- Claim C7 (counterexample to the retry half): on a manager holding one
live dirty record, a cancelled `device_update` clears `need_update`, and
the next call to `device_update` — although not cancelled — leaves the
record with `need_load` still `true` and no device buffer: the record is
not retried by the next `device_update`. -/
theorem claim_C7_counterexample :
    (device_update true c7_envs 0 c7_state).need_update = false ∧
    (((device_update false c7_envs 0
          (device_update true c7_envs 0 c7_state)).images
        ImageDataType.FLOAT4).getD 0 none).map
      (fun i => (i.need_load, i.mem.isSome)) = some (true, false) :=
  ⟨rfl, rfl⟩

end Cycles
